import Mathlib

/-!
# Spartan engine: pipeline-state descriptor and swapchain

A shallow embedding of `Runtime/RHI/RHI_PipelineState.cpp` and of
`Runtime/RHI/Vulkan/Vulkan_SwapChain.cpp`, and a verification of the statements their
specification makes about `IsValid`, `GetWidth`, `GetHeight`, `ResetClearValues` and
`ComputeHash` of the descriptor and about the constructor, `Resize`, `AcquireNextImage`,
`Present` and `SetLayout` of the swapchain; with them the render flags of
`Runtime/Rendering/Renderer.h` and the copy functions of
`Directus3D/AssetImporting/ImageImporter.cpp`.

Conventions of the embedding.

* A C++ pointer to an engine object is an `Option` of the attributes the pipeline state reads
  from the pointee (`GetId`, `IsCompiled`, `GetWidth`, `GetHeight`); `none` is `nullptr`.
* `std::array<T, rhi_max_render_target_count>` is a function `Fin N → T`, where `N` stands for
  `rhi_max_render_target_count`.
* A `float` is its IEEE-754 binary32 bit pattern; `==` on floats is `Float32.eq`.
* Unsigned machine integers are `Nat`, `int` is `Int`, enumerations are their underlying `Nat`.
* Constants and operators that the file uses but that are declared in other headers
  (`RHI_Definition.h`, `Math/Vector4.h`, `Utilities/Hash.h`) are parameters: the record
  `RHI_Definition` and the function `hash_combine`.
* A member function that mutates the object returns the new object.
-/

namespace Spartan

/-! ## Scalars and small value types -/

/-- A C++ `float`, given by its IEEE-754 binary32 bit pattern (`bits < 2 ^ 32`). -/
structure Float32 where
  bits : Nat
  deriving DecidableEq, Repr

namespace Float32

/-- Exponent field all ones and a non-zero mantissa. -/
def isNaN (a : Float32) : Bool :=
  (a.bits / 2 ^ 23) % 256 == 255 && a.bits % 2 ^ 23 != 0

/-- Positive or negative zero: every bit but the sign bit is clear. -/
def isZero (a : Float32) : Bool :=
  a.bits % 2 ^ 31 == 0

/-- The C++ `==` on two floats: false when either side is a NaN, true for `+0 == -0`,
otherwise equality of the bit patterns. -/
def eq (a b : Float32) : Bool :=
  !a.isNaN && !b.isNaN && (a.bits == b.bits || (a.isZero && b.isZero))

end Float32

/-- The type `Math::Vector4`: four floats. -/
structure Vector4 where
  x : Float32
  y : Float32
  z : Float32
  w : Float32
  deriving DecidableEq, Repr

/-- The type `RHI_Viewport`, of which `ComputeHash` reads `x`, `y`, `width`, `height`. -/
structure RHI_Viewport where
  x : Float32
  y : Float32
  width : Float32
  height : Float32
  deriving DecidableEq, Repr

/-- The type `Math::Rectangle`, of which `ComputeHash` reads `left`, `top`, `right`, `bottom`. -/
structure Rectangle where
  left : Float32
  top : Float32
  right : Float32
  bottom : Float32
  deriving DecidableEq, Repr

/-- Underlying value of the enumeration `RHI_PrimitiveTopology_Mode`. -/
abbrev RHI_PrimitiveTopology_Mode := Nat

/-- Underlying value of the enumeration `RHI_Image_Layout`. -/
abbrev RHI_Image_Layout := Nat

/-! ## Referenced engine objects, as the pipeline state observes them -/

/-- Pointee of an `RHI_Shader*`: `GetId()` and `IsCompiled()`. -/
structure RHI_Shader where
  GetId : Nat
  IsCompiled : Bool
  deriving DecidableEq, Repr

/-- Pointee of an `RHI_Texture*`: `GetId()`, `GetWidth()`, `GetHeight()`. -/
structure RHI_Texture where
  GetId : Nat
  GetWidth : Nat
  GetHeight : Nat
  deriving DecidableEq, Repr

/-- Pointee of the `RHI_SwapChain*` held by a pipeline state: `GetId()`, `GetWidth()`,
`GetHeight()`. -/
structure RHI_SwapChainTarget where
  GetId : Nat
  GetWidth : Nat
  GetHeight : Nat
  deriving DecidableEq, Repr

/-- Pointee of an `RHI_RasterizerState*`: `GetId()`. -/
structure RHI_RasterizerState where
  GetId : Nat
  deriving DecidableEq, Repr

/-- Pointee of an `RHI_BlendState*`: `GetId()`. -/
structure RHI_BlendState where
  GetId : Nat
  deriving DecidableEq, Repr

/-- Pointee of an `RHI_DepthStencilState*`: `GetId()`. -/
structure RHI_DepthStencilState where
  GetId : Nat
  deriving DecidableEq, Repr

/-! ## Parameters: declarations of other headers -/

/-- The constants of `RHI_Definition.h` and the comparison of `Math/Vector4.h` that
`RHI_PipelineState.cpp` uses. Those headers are not part of the verified sources, so their
values are parameters of every definition below. -/
structure RHI_Definition where
  rhi_color_dont_care : Vector4
  rhi_color_load : Vector4
  rhi_depth_dont_care : Float32
  rhi_depth_load : Float32
  rhi_stencil_dont_care : Nat
  rhi_stencil_load : Nat
  RHI_PrimitiveTopology_Unknown : RHI_PrimitiveTopology_Mode
  /-- The operator `Math::Vector4::operator==`. -/
  Vector4_eq : Vector4 → Vector4 → Bool

/-- One argument of `Utility::Hash::hash_combine(seed, v)`. The function is a template over
the type of `v`, so an argument is a value tagged with its C++ type. -/
inductive HashArg where
  | bool (v : Bool)
  | float (v : Float32)
  | int (v : Int)
  | uint32 (v : Nat)
  | uint8 (v : Nat)
  | topology (v : RHI_PrimitiveTopology_Mode)
  | layout (v : RHI_Image_Layout)
  deriving DecidableEq, Repr

/-- The type of `Utility::Hash::hash_combine`: the seed before, the argument, the seed after. -/
abbrev HashCombine := Nat → HashArg → Nat

/-! ## The descriptor -/

/-- The members of `RHI_PipelineState` that `RHI_PipelineState.cpp` reads or writes. -/
structure RHI_PipelineState (N : Nat) where
  shader_vertex : Option RHI_Shader
  shader_pixel : Option RHI_Shader
  shader_compute : Option RHI_Shader
  rasterizer_state : Option RHI_RasterizerState
  blend_state : Option RHI_BlendState
  depth_stencil_state : Option RHI_DepthStencilState
  render_target_swapchain : Option RHI_SwapChainTarget
  primitive_topology : RHI_PrimitiveTopology_Mode
  viewport : RHI_Viewport
  scissor : Rectangle
  dynamic_scissor : Bool
  vertex_buffer_stride : Nat
  render_target_depth_texture : Option RHI_Texture
  render_target_color_textures : Fin N → Option RHI_Texture
  render_target_color_layout_initial : RHI_Image_Layout
  render_target_color_layout_final : RHI_Image_Layout
  render_target_depth_layout_initial : RHI_Image_Layout
  render_target_depth_layout_final : RHI_Image_Layout
  render_target_color_texture_array_index : Int
  render_target_depth_stencil_texture_array_index : Int
  clear_color : Fin N → Vector4
  clear_depth : Float32
  clear_stencil : Nat
  pass_name : Option String
  mark : Bool
  profile : Bool
  m_hash : Nat

variable {N : Nat}

/-! ## `IsValid` -/

/-- The method `RHI_PipelineState::IsValid`: the descriptor after the call (with `profile` and
`mark` deduced from `pass_name`) and the verdict. The error log line is not modelled. -/
def IsValid [NeZero N] (K : RHI_Definition) (d : RHI_PipelineState N) :
    RHI_PipelineState N × Bool :=
  let is_valid := true
  -- Deduce if marking and profiling should occur
  let d := { d with profile := d.pass_name.isSome, mark := d.pass_name.isSome }
  let is_valid :=
    match d.shader_compute with
    -- Compute shader
    | some shader_compute =>
      if !shader_compute.IsCompiled then false else is_valid
    | none =>
      match d.shader_vertex with
      -- Vertex shader
      | some shader_vertex =>
        let is_valid := if !shader_vertex.IsCompiled then false else is_valid
        -- Check that there is a render target
        let is_valid :=
          if d.render_target_swapchain.isNone && (d.render_target_color_textures 0).isNone
              && d.render_target_depth_texture.isNone then false else is_valid
        -- Check that not both the swapchain and the color render target are active
        let is_valid :=
          if d.render_target_swapchain.isSome && (d.render_target_color_textures 0).isSome
            then false else is_valid
        -- Check for required states
        let is_valid :=
          if d.rasterizer_state.isNone || d.blend_state.isNone || d.depth_stencil_state.isNone
              || d.primitive_topology == K.RHI_PrimitiveTopology_Unknown then false else is_valid
        is_valid
      | none => false
  -- Pixel shader
  let is_valid :=
    match d.shader_pixel with
    | some shader_pixel => if !shader_pixel.IsCompiled then false else is_valid
    | none => is_valid
  (d, is_valid)

/-! ## `GetWidth`, `GetHeight`, `ResetClearValues` -/

/-- The method `RHI_PipelineState::GetWidth`. -/
def GetWidth [NeZero N] (d : RHI_PipelineState N) : Nat :=
  match d.render_target_swapchain with
  | some render_target_swapchain => render_target_swapchain.GetWidth
  | none =>
    match d.render_target_color_textures 0 with
    | some texture => texture.GetWidth
    | none =>
      match d.render_target_depth_texture with
      | some render_target_depth_texture => render_target_depth_texture.GetWidth
      | none => 0

/-- The method `RHI_PipelineState::GetHeight`. -/
def GetHeight [NeZero N] (d : RHI_PipelineState N) : Nat :=
  match d.render_target_swapchain with
  | some render_target_swapchain => render_target_swapchain.GetHeight
  | none =>
    match d.render_target_color_textures 0 with
    | some texture => texture.GetHeight
    | none =>
      match d.render_target_depth_texture with
      | some render_target_depth_texture => render_target_depth_texture.GetHeight
      | none => 0

/-- The method `RHI_PipelineState::ResetClearValues`; `clear_color.fill(v)` writes `v` to
every element of the array. -/
def ResetClearValues (K : RHI_Definition) (d : RHI_PipelineState N) : RHI_PipelineState N :=
  { d with
    clear_color := fun _ => K.rhi_color_load
    clear_depth := K.rhi_depth_load
    clear_stencil := K.rhi_stencil_load }

/-! ## `ComputeHash`

The body of `ComputeHash` is embedded block by block, in source order; every block takes the
running `m_hash` and returns it after the block's `hash_combine` calls. -/

/-- Lines 147-166: the seed is reset to 0, then the scalar members are folded in, the scissor
rectangle only when `dynamic_scissor` is false. -/
def ComputeHash.scalars (hash_combine : HashCombine) (d : RHI_PipelineState N) : Nat :=
  let m_hash := 0
  let m_hash := hash_combine m_hash (.bool d.dynamic_scissor)
  let m_hash := hash_combine m_hash (.float d.viewport.x)
  let m_hash := hash_combine m_hash (.float d.viewport.y)
  let m_hash := hash_combine m_hash (.float d.viewport.width)
  let m_hash := hash_combine m_hash (.float d.viewport.height)
  let m_hash := hash_combine m_hash (.topology d.primitive_topology)
  let m_hash := hash_combine m_hash (.uint32 d.vertex_buffer_stride)
  let m_hash := hash_combine m_hash (.int d.render_target_color_texture_array_index)
  let m_hash := hash_combine m_hash (.int d.render_target_depth_stencil_texture_array_index)
  let m_hash := hash_combine m_hash
    (.uint32 (match d.render_target_swapchain with
      | some render_target_swapchain => render_target_swapchain.GetId
      | none => 0))
  if !d.dynamic_scissor then
    let m_hash := hash_combine m_hash (.float d.scissor.left)
    let m_hash := hash_combine m_hash (.float d.scissor.top)
    let m_hash := hash_combine m_hash (.float d.scissor.right)
    let m_hash := hash_combine m_hash (.float d.scissor.bottom)
    m_hash
  else m_hash

/-- Lines 168-181: rasterizer, blend and depth-stencil state, each only when set. -/
def ComputeHash.states (hash_combine : HashCombine) (d : RHI_PipelineState N) (m_hash : Nat) :
    Nat :=
  let m_hash :=
    match d.rasterizer_state with
    | some rasterizer_state => hash_combine m_hash (.uint32 rasterizer_state.GetId)
    | none => m_hash
  let m_hash :=
    match d.blend_state with
    | some blend_state => hash_combine m_hash (.uint32 blend_state.GetId)
    | none => m_hash
  let m_hash :=
    match d.depth_stencil_state with
    | some depth_stencil_state => hash_combine m_hash (.uint32 depth_stencil_state.GetId)
    | none => m_hash
  m_hash

/-- Lines 183-199: compute, vertex and pixel shader, each only when set. -/
def ComputeHash.shaders (hash_combine : HashCombine) (d : RHI_PipelineState N) (m_hash : Nat) :
    Nat :=
  let m_hash :=
    match d.shader_compute with
    | some shader_compute => hash_combine m_hash (.uint32 shader_compute.GetId)
    | none => m_hash
  let m_hash :=
    match d.shader_vertex with
    | some shader_vertex => hash_combine m_hash (.uint32 shader_vertex.GetId)
    | none => m_hash
  let m_hash :=
    match d.shader_pixel with
    | some shader_pixel => hash_combine m_hash (.uint32 shader_pixel.GetId)
    | none => m_hash
  m_hash

/-- Line 213: the load operation of colour slot `i`. -/
def ComputeHash.load_op_color (K : RHI_Definition) (d : RHI_PipelineState N) (i : Fin N) : Nat :=
  if K.Vector4_eq (d.clear_color i) K.rhi_color_dont_care then 0
  else if K.Vector4_eq (d.clear_color i) K.rhi_color_load then 1 else 2

/-- Line 225: the load operation of the depth aspect. -/
def ComputeHash.load_op_depth (K : RHI_Definition) (d : RHI_PipelineState N) : Nat :=
  if d.clear_depth.eq K.rhi_depth_dont_care then 0
  else if d.clear_depth.eq K.rhi_depth_load then 1 else 2

/-- Line 228: the load operation of the stencil aspect. -/
def ComputeHash.load_op_stencil (K : RHI_Definition) (d : RHI_PipelineState N) : Nat :=
  if d.clear_stencil == K.rhi_stencil_dont_care then 0
  else if d.clear_stencil == K.rhi_stencil_load then 1 else 2

/-- Lines 209-217: one iteration of the colour loop, on the pair `(m_hash, has_rt_color)`. -/
def ComputeHash.color_step (K : RHI_Definition) (hash_combine : HashCombine)
    (d : RHI_PipelineState N) (s : Nat × Bool) (i : Fin N) : Nat × Bool :=
  match d.render_target_color_textures i with
  | some texture =>
    let m_hash := hash_combine s.1 (.uint32 texture.GetId)
    let load_op := ComputeHash.load_op_color K d i
    let m_hash := hash_combine m_hash (.uint8 load_op)
    (m_hash, true)
  | none => s

/-- Lines 201-231: the colour loop over `i = 0 .. rhi_max_render_target_count - 1`, then the
depth target. Returns `m_hash` and `has_rt_color`. -/
def ComputeHash.render_targets (K : RHI_Definition) (hash_combine : HashCombine)
    (d : RHI_PipelineState N) (m_hash : Nat) : Nat × Bool :=
  let has_rt_color := false
  -- Color
  let s := (List.finRange N).foldl (ComputeHash.color_step K hash_combine d) (m_hash, has_rt_color)
  let m_hash := s.1
  let has_rt_color := s.2
  -- Depth
  let m_hash :=
    match d.render_target_depth_texture with
    | some render_target_depth_texture =>
      let m_hash := hash_combine m_hash (.uint32 render_target_depth_texture.GetId)
      let load_op := ComputeHash.load_op_depth K d
      let m_hash := hash_combine m_hash (.uint8 load_op)
      let load_op := ComputeHash.load_op_stencil K d
      let m_hash := hash_combine m_hash (.uint8 load_op)
      m_hash
    | none => m_hash
  (m_hash, has_rt_color)

/-- Lines 233-246: initial and final layouts of the colour and of the depth targets. -/
def ComputeHash.layouts (hash_combine : HashCombine) (d : RHI_PipelineState N)
    (has_rt_color : Bool) (m_hash : Nat) : Nat :=
  let m_hash :=
    if has_rt_color then
      let m_hash := hash_combine m_hash (.layout d.render_target_color_layout_initial)
      let m_hash := hash_combine m_hash (.layout d.render_target_color_layout_final)
      m_hash
    else m_hash
  let m_hash :=
    match d.render_target_depth_texture with
    | some _ =>
      let m_hash := hash_combine m_hash (.layout d.render_target_depth_layout_initial)
      let m_hash := hash_combine m_hash (.layout d.render_target_depth_layout_final)
      m_hash
    | none => m_hash
  m_hash

/-- The method `RHI_PipelineState::ComputeHash`: the descriptor with the new `m_hash`. -/
def ComputeHash (K : RHI_Definition) (hash_combine : HashCombine) (d : RHI_PipelineState N) :
    RHI_PipelineState N :=
  let m_hash := ComputeHash.scalars hash_combine d
  let m_hash := ComputeHash.states hash_combine d m_hash
  let m_hash := ComputeHash.shaders hash_combine d m_hash
  let rt := ComputeHash.render_targets K hash_combine d m_hash
  let m_hash := ComputeHash.layouts hash_combine d rt.2 rt.1
  { d with m_hash := m_hash }

/-! ## Swapchain (`Runtime/RHI/Vulkan/Vulkan_SwapChain.cpp`)

The swapchain talks to collaborators that are not part of the verified sources: the device,
the Vulkan driver, the command lists and the helpers of `vulkan_utility`. Their answers during
one call of a swapchain method are collected in the record `Backend`; every method returns,
next to the object after the call and its return value, the list of the calls it made on
those collaborators. Dereferencing `m_rhi_device` and `m_cmd_lists[m_cmd_index]` is taken to
be safe. -/

/-- An opaque `void*` handle, by its address; `0` is `nullptr`. -/
abbrev Handle := Nat

/-- The Vulkan result code `VkResult`, by its numeric value. -/
abbrev VkResult := Int

/-- The Vulkan constant `VK_SUCCESS`. -/
def VK_SUCCESS : VkResult := 0

/-- The Vulkan constant `VK_SUBOPTIMAL_KHR`. -/
def VK_SUBOPTIMAL_KHR : VkResult := 1000001003

/-- The Vulkan constant `VK_ERROR_OUT_OF_DATE_KHR`. -/
def VK_ERROR_OUT_OF_DATE_KHR : VkResult := -1000001004

/-- The fields `minImageExtent` and `maxImageExtent` of `VkSurfaceCapabilitiesKHR`. -/
structure VkSurfaceCapabilitiesKHR where
  minImageExtent_width : Nat
  minImageExtent_height : Nat
  maxImageExtent_width : Nat
  maxImageExtent_height : Nat
  deriving DecidableEq, Repr

/-- Pointee of an `RHI_CommandList*`: `GetResource_CommandBuffer()` and
`GetProcessedSemaphore()`. -/
structure RHI_CommandList where
  GetResource_CommandBuffer : Handle
  GetProcessedSemaphore : Handle
  deriving DecidableEq, Repr

/-- A call that a swapchain method makes on a collaborator. The calls that
`_Vulkan_SwapChain::create` and `_Vulkan_SwapChain::destroy` make in turn are represented by
the single entries `create` and `destroy`. -/
inductive Call where
  /-- The call `m_rhi_device->Queue_WaitAll()`. -/
  | Queue_WaitAll
  /-- The call `_Vulkan_SwapChain::destroy(...)`. -/
  | destroy
  /-- The call `_Vulkan_SwapChain::create(...)` with the requested width and height. -/
  | create (width height : Nat)
  /-- The call `vkAcquireNextImageKHR` on a swapchain with the semaphore to signal. -/
  | vkAcquireNextImageKHR (swap_chain semaphore : Handle)
  /-- The call `Submit()` on the command list of the given index. -/
  | Submit (cmd_index : Nat)
  /-- The call `m_rhi_device->Queue_Present(swap_chain, &image_index, semaphore)`. -/
  | Queue_Present (swap_chain : Handle) (image_index : Nat) (semaphore : Handle)
  /-- The call `vulkan_utility::image::set_layout(cmd_buffer, image, this, layout)`. -/
  | set_layout (cmd_buffer image : Handle) (layout : RHI_Image_Layout)
  /-- The call `vulkan_utility::command_pool::create(m_cmd_pool, RHI_Queue_Graphics)`. -/
  | command_pool_create
  /-- The call `make_shared<RHI_CommandList>(i, this, context)`. -/
  | make_RHI_CommandList (i : Nat)
  deriving DecidableEq, Repr

/-- The answers of the collaborators during one call of a swapchain method. -/
structure Backend (N : Nat) where
  /-- The method `RHI_Device::ValidateResolution(width, height)`. -/
  ValidateResolution : Nat → Nat → Bool
  /-- The helper `vulkan_utility::error::check(result)`. -/
  check : VkResult → Bool
  /-- Result of `vkCreateWin32SurfaceKHR` and the surface it stores. -/
  vkCreateWin32SurfaceKHR : VkResult × Handle
  /-- Result of `vkGetPhysicalDeviceSurfaceSupportKHR` and the flag it stores. -/
  vkGetPhysicalDeviceSurfaceSupportKHR : VkResult × Bool
  /-- The helper `vulkan_utility::surface::capabilities(surface)`. -/
  capabilities : VkSurfaceCapabilitiesKHR
  /-- Result of `vkCreateSwapchainKHR` and the swapchain it stores. -/
  vkCreateSwapchainKHR : VkResult × Handle
  /-- The images reported by `vkGetSwapchainImagesKHR`; `image_count` is their number. -/
  vkGetSwapchainImagesKHR : List Handle
  /-- The helper `vulkan_utility::image::view::create` for image `i`: success, and the view
  it leaves in `resource_views[i]`. -/
  image_view_create : Nat → Bool × Handle
  /-- The semaphore that `vulkan_utility::semaphore::create` leaves in slot `i`. -/
  semaphore_create : Nat → Handle
  /-- The array that `vulkan_utility::image::view::destroy(image_views)` leaves behind. -/
  image_view_destroy : (Fin N → Handle) → (Fin N → Handle)
  /-- Result of `vkAcquireNextImageKHR` and the value it leaves in `*pImageIndex`. -/
  vkAcquireNextImageKHR : VkResult × Nat
  /-- The method `IsRecording()` of the command list of the given index. -/
  IsRecording : Nat → Bool
  /-- The method `Submit()` of the command list of the given index. -/
  Submit : Nat → Bool
  /-- The method `RHI_Device::Queue_Present`. -/
  Queue_Present : Bool

/-- The members of `RHI_SwapChain` that `Vulkan_SwapChain.cpp` reads or writes. -/
structure RHI_SwapChain (N : Nat) where
  m_initialized : Bool
  m_present_enabled : Bool
  m_image_acquired : Bool
  m_width : Nat
  m_height : Nat
  m_buffer_count : Nat
  m_flags : Nat
  m_format : Nat
  m_layout : RHI_Image_Layout
  m_cmd_index : Nat
  m_image_index : Nat
  m_rhi_device : Handle
  m_window_handle : Handle
  m_surface : Handle
  m_swap_chain_view : Handle
  m_cmd_pool : Handle
  m_resource : Fin N → Handle
  m_resource_view : Fin N → Handle
  m_image_acquired_semaphore : Fin N → Handle
  m_cmd_lists : List RHI_CommandList

/-- What a call of a method leaves behind: the object after the call, the value returned, and
the calls made on collaborators, in order. -/
structure Outcome (σ α : Type) where
  self : σ
  ret : α
  calls : List Call

/-- The element `a[i]` of a `std::array` for a raw index. An index past the end of the array
is outside the model and reads as `nullptr`. -/
def array_at (a : Fin N → Handle) (i : Nat) : Handle :=
  if h : i < N then a ⟨i, h⟩ else 0

/-- The assignment `a[i] = v` to a `std::array` for a raw index. An index past the end of the
array is outside the model and the write is dropped. -/
def array_set (a : Fin N → Handle) (i : Nat) (v : Handle) : Fin N → Handle :=
  fun j => if j.val = i then v else a j

/-- Modelled from the spec: the helper `Math::Helper::Clamp(x, a, b)` of `Math/Helper.h`, which
is not among the verified sources; the specification has `create` clamp the requested size to
the minimum and maximum that the device reports. -/
def Clamp (x a b : Nat) : Nat :=
  if x < a then a else if x > b then b else x

/-- The output parameters and the return value of `_Vulkan_SwapChain::create`. -/
structure CreateResult (N : Nat) where
  ret : Bool
  width : Nat
  height : Nat
  surface_out : Handle
  swap_chain_view_out : Handle
  resource_textures : Fin N → Handle
  resource_views : Fin N → Handle
  image_acquired_semaphores : Fin N → Handle

/-- Lines 139-148: the loop over the swapchain images from index `i` on. Returns false as
soon as the creation of a view fails, with the arrays as written so far. -/
def _Vulkan_SwapChain.create.image_views (B : Backend N) :
    List Handle → Nat → (Fin N → Handle) → (Fin N → Handle) →
      Bool × (Fin N → Handle) × (Fin N → Handle)
  | [], _, resource_textures, resource_views => (true, resource_textures, resource_views)
  | image :: rest, i, resource_textures, resource_views =>
    let resource_textures := array_set resource_textures i image
    let resource_views := array_set resource_views i (B.image_view_create i).2
    if !(B.image_view_create i).1 then (false, resource_textures, resource_views)
    else _Vulkan_SwapChain.create.image_views B rest (i + 1) resource_textures resource_views

/-- The function `_Vulkan_SwapChain::create`. -/
def _Vulkan_SwapChain.create (B : Backend N) (width height buffer_count : Nat)
    (surface_out swap_chain_view_out : Handle)
    (resource_textures resource_views image_acquired_semaphores : Fin N → Handle) :
    CreateResult N :=
  -- Create surface
  let surface := B.vkCreateWin32SurfaceKHR.2
  if !B.check B.vkCreateWin32SurfaceKHR.1 then
    ⟨false, width, height, surface_out, swap_chain_view_out, resource_textures, resource_views,
      image_acquired_semaphores⟩
  else
  let present_support := B.vkGetPhysicalDeviceSurfaceSupportKHR.2
  if !B.check B.vkGetPhysicalDeviceSurfaceSupportKHR.1 then
    ⟨false, width, height, surface_out, swap_chain_view_out, resource_textures, resource_views,
      image_acquired_semaphores⟩
  else
  if !present_support then
    ⟨false, width, height, surface_out, swap_chain_view_out, resource_textures, resource_views,
      image_acquired_semaphores⟩
  else
  -- Get surface capabilities
  let capabilities := B.capabilities
  -- Compute extent
  let width := Clamp width capabilities.minImageExtent_width capabilities.maxImageExtent_width
  let height := Clamp height capabilities.minImageExtent_height capabilities.maxImageExtent_height
  -- Swap chain
  let swap_chain := B.vkCreateSwapchainKHR.2
  if !B.check B.vkCreateSwapchainKHR.1 then
    ⟨false, width, height, surface_out, swap_chain_view_out, resource_textures, resource_views,
      image_acquired_semaphores⟩
  else
  -- Images
  let swap_chain_images := B.vkGetSwapchainImagesKHR
  -- Image views
  let views :=
    _Vulkan_SwapChain.create.image_views B swap_chain_images 0 resource_textures resource_views
  let resource_textures := views.2.1
  let resource_views := views.2.2
  if !views.1 then
    ⟨false, width, height, surface_out, swap_chain_view_out, resource_textures, resource_views,
      image_acquired_semaphores⟩
  else
  let surface_out := surface
  let swap_chain_view_out := swap_chain
  let image_acquired_semaphores :=
    (List.range buffer_count).foldl
      (fun semaphores i => array_set semaphores i (B.semaphore_create i))
      image_acquired_semaphores
  ⟨true, width, height, surface_out, swap_chain_view_out, resource_textures, resource_views,
    image_acquired_semaphores⟩

/-- The parameters that `_Vulkan_SwapChain::destroy` takes by reference, after the call. -/
structure DestroyResult (N : Nat) where
  surface : Handle
  swap_chain_view : Handle
  image_views : Fin N → Handle
  semaphores_image_acquired : Fin N → Handle

/-- The function `_Vulkan_SwapChain::destroy`. Its parameter `buffer_count`, a `uint8_t`, only
bounds the loop that destroys the semaphores one by one; whatever that loop leaves in the
array is overwritten by `fill(nullptr)`. -/
def _Vulkan_SwapChain.destroy (B : Backend N) (_buffer_count : Nat)
    (surface swap_chain_view : Handle) (image_views _semaphores_image_acquired : Fin N → Handle) :
    DestroyResult N :=
  -- Semaphores
  let semaphores_image_acquired : Fin N → Handle := fun _ => 0
  -- Image views
  let image_views := B.image_view_destroy image_views
  -- Swap chain view
  let swap_chain_view := if swap_chain_view != 0 then 0 else swap_chain_view
  -- Surface
  let surface := if surface != 0 then 0 else surface
  ⟨surface, swap_chain_view, image_views, semaphores_image_acquired⟩

/-- The method `RHI_SwapChain::Resize(width, height, force)`. -/
def Resize (B : Backend N) (s : RHI_SwapChain N) (width height : Nat) (force : Bool) :
    Outcome (RHI_SwapChain N) Bool :=
  -- Validate resolution
  let s := { s with m_present_enabled := B.ValidateResolution width height }
  if !s.m_present_enabled then
    -- Return true as when minimizing, a resolution of 0,0 can be passed in, and this is fine.
    ⟨s, true, []⟩
  else
  -- Only resize if needed
  if !force && (s.m_width == width && s.m_height == height) then ⟨s, true, []⟩
  else
  -- Wait in case any command buffer is still in use
  let calls := [Call.Queue_WaitAll]
  -- Save new dimensions
  let s := { s with m_width := width, m_height := height }
  -- Destroy previous swap chain
  let calls := calls ++ [Call.destroy]
  let destroyed := _Vulkan_SwapChain.destroy B s.m_buffer_count s.m_surface s.m_swap_chain_view
    s.m_resource_view s.m_image_acquired_semaphore
  let s := { s with
    m_surface := destroyed.surface
    m_swap_chain_view := destroyed.swap_chain_view
    m_resource_view := destroyed.image_views
    m_image_acquired_semaphore := destroyed.semaphores_image_acquired }
  -- Create the swap chain with the new dimensions
  let calls := calls ++ [Call.create s.m_width s.m_height]
  let created := _Vulkan_SwapChain.create B s.m_width s.m_height s.m_buffer_count s.m_surface
    s.m_swap_chain_view s.m_resource s.m_resource_view s.m_image_acquired_semaphore
  let s := { s with
    m_initialized := created.ret
    m_width := created.width
    m_height := created.height
    m_surface := created.surface_out
    m_swap_chain_view := created.swap_chain_view_out
    m_resource := created.resource_textures
    m_resource_view := created.resource_views
    m_image_acquired_semaphore := created.image_acquired_semaphores }
  ⟨s, s.m_initialized, calls⟩

/-- The conversion of a `VkResult` to `bool`: every value but zero is true. -/
def VkResult.toBool (r : VkResult) : Bool := r != 0

/-- The method `RHI_SwapChain::AcquireNextImage`. In `m_cmd_index = m_cmd_index++ %
m_buffer_count` the right-hand side, increment included, is evaluated before the assignment
(C++17), which then stores the old index modulo `m_buffer_count`. A remainder by zero is
undefined in C++; here it leaves the index as it is. -/
def AcquireNextImage (B : Backend N) (s : RHI_SwapChain N) : Outcome (RHI_SwapChain N) Bool :=
  if !s.m_present_enabled then ⟨s, true, []⟩
  else
  let s := { s with m_cmd_index := s.m_cmd_index % s.m_buffer_count }
  -- Acquire next image
  let calls := [Call.vkAcquireNextImageKHR s.m_swap_chain_view
    (array_at s.m_image_acquired_semaphore s.m_image_index)]
  let result := B.vkAcquireNextImageKHR.1
  let s := { s with m_image_index := B.vkAcquireNextImageKHR.2 }
  let resized :=
    if result == VK_ERROR_OUT_OF_DATE_KHR || result == VK_SUBOPTIMAL_KHR then
      let r := Resize B s s.m_width s.m_height true
      let s := r.self
      (({ s with m_image_acquired := VkResult.toBool (if r.ret then VK_SUCCESS else result) } :
        RHI_SwapChain N), calls ++ r.calls)
    else (s, calls)
  let s := resized.1
  let calls := resized.2
  let s := { s with m_image_acquired := result == VK_SUCCESS }
  ⟨s, B.check result, calls⟩

/-- The method `RHI_SwapChain::Present`. The command list it works on is the one that
`GetCmdList()` returns, `m_cmd_lists[m_cmd_index]`. -/
def Present (B : Backend N) (s : RHI_SwapChain N) : Outcome (RHI_SwapChain N) Bool :=
  if !s.m_present_enabled then ⟨s, true, []⟩
  else
  let cmd_list := s.m_cmd_index
  -- Ensure the command list is not recording
  if B.IsRecording cmd_list && !B.Submit cmd_list then ⟨s, false, [Call.Submit cmd_list]⟩
  else
  let calls := if B.IsRecording cmd_list then [Call.Submit cmd_list] else []
  if !s.m_image_acquired then ⟨s, false, calls⟩
  else
  let calls := calls ++ [Call.Queue_Present s.m_swap_chain_view s.m_image_index
    (match s.m_cmd_lists[cmd_list]? with
      | some c => c.GetProcessedSemaphore
      | none => 0)]
  if !B.Queue_Present then ⟨s, false, calls⟩
  else
  let r := AcquireNextImage B s
  if !r.ret then ⟨r.self, false, calls ++ r.calls⟩
  else ⟨r.self, true, calls ++ r.calls⟩

/-- The method `RHI_SwapChain::SetLayout(layout, command_list)`. -/
def SetLayout (s : RHI_SwapChain N) (layout : RHI_Image_Layout)
    (command_list : Option RHI_CommandList) : Outcome (RHI_SwapChain N) Unit :=
  if s.m_layout == layout then ⟨s, (), []⟩
  else
  let calls :=
    match command_list with
    | some command_list =>
      (List.range s.m_buffer_count).map fun i =>
        Call.set_layout command_list.GetResource_CommandBuffer (array_at s.m_resource i) layout
    | none => []
  ⟨{ s with m_layout := layout }, (), calls⟩

/-! ## Swapchain: construction and sequences of calls -/

/-- Pointee of the `shared_ptr<RHI_Device>` given to the constructor: the address that
`rhi_device.get()` returns and the handle `GetContextRhi()->device`. -/
structure RHI_Device where
  get : Handle
  device : Handle
  deriving DecidableEq, Repr

/-- The answers of the collaborators that only the constructor consults. -/
structure Platform where
  /-- The Win32 function `IsWindow(hwnd)`. -/
  IsWindow : Handle → Bool
  /-- The handle that `vulkan_utility::command_pool::create` leaves in `m_cmd_pool`. -/
  command_pool_create : Handle
  /-- The command list that `make_shared<RHI_CommandList>(i, this, context)` creates. -/
  make_RHI_CommandList : Nat → RHI_CommandList

/-- Modelled from the spec: the members of a swapchain before the body of its constructor
runs, that is the default member initialisers of `RHI_SwapChain.h`, which is not among the
verified sources. Following the specification, the object starts uninitialized
(`m_initialized` false), presentation is enabled (it is disabled only for a degenerate
resolution), no image is acquired, and there is no command list; handles are null and numbers
zero. -/
def RHI_SwapChain.defaults : RHI_SwapChain N where
  m_initialized := false
  m_present_enabled := true
  m_image_acquired := false
  m_width := 0
  m_height := 0
  m_buffer_count := 0
  m_flags := 0
  m_format := 0
  m_layout := 0
  m_cmd_index := 0
  m_image_index := 0
  m_rhi_device := 0
  m_window_handle := 0
  m_surface := 0
  m_swap_chain_view := 0
  m_cmd_pool := 0
  m_resource := fun _ => 0
  m_resource_view := fun _ => 0
  m_image_acquired_semaphore := fun _ => 0
  m_cmd_lists := []

/-- The constructor `RHI_SwapChain::RHI_SwapChain(window_handle, rhi_device, width, height,
format, buffer_count, flags)`. The record `B` answers during the statements of the
constructor itself, down to the creation of the command lists; the record `B2` answers during
the `AcquireNextImage` of line 264, which can run `_Vulkan_SwapChain::create` a second time
through its forced `Resize`. -/
def RHI_SwapChain.construct (P : Platform) (B B2 : Backend N) (window_handle : Handle)
    (rhi_device : Option RHI_Device) (width height format buffer_count flags : Nat) :
    Outcome (RHI_SwapChain N) Unit :=
  let s : RHI_SwapChain N := RHI_SwapChain.defaults
  -- Validate device
  match rhi_device with
  | none => ⟨s, (), []⟩
  | some device =>
  if device.device == 0 then ⟨s, (), []⟩
  else
  -- Validate resolution
  if !B.ValidateResolution width height then ⟨s, (), []⟩
  else
  -- Validate window handle
  if window_handle == 0 || !P.IsWindow window_handle then ⟨s, (), []⟩
  else
  -- Copy parameters
  let s := { s with
    m_format := format
    m_rhi_device := device.get
    m_buffer_count := buffer_count
    m_width := width
    m_height := height
    m_window_handle := window_handle
    m_flags := flags }
  let calls := [Call.create s.m_width s.m_height]
  let created := _Vulkan_SwapChain.create B s.m_width s.m_height s.m_buffer_count s.m_surface
    s.m_swap_chain_view s.m_resource s.m_resource_view s.m_image_acquired_semaphore
  let s := { s with
    m_initialized := created.ret
    m_width := created.width
    m_height := created.height
    m_surface := created.surface_out
    m_swap_chain_view := created.swap_chain_view_out
    m_resource := created.resource_textures
    m_resource_view := created.resource_views
    m_image_acquired_semaphore := created.image_acquired_semaphores }
  -- Create command pool
  let calls := calls ++ [Call.command_pool_create]
  let s := { s with m_cmd_pool := P.command_pool_create }
  -- Create command lists
  let calls := calls ++ (List.range s.m_buffer_count).map Call.make_RHI_CommandList
  let s := { s with
    m_cmd_lists := s.m_cmd_lists ++ (List.range s.m_buffer_count).map P.make_RHI_CommandList }
  let r := AcquireNextImage B2 s
  ⟨r.self, (), calls ++ r.calls⟩

/-- One call of a public method on a swapchain, with the answers of the collaborators during
that call. -/
inductive Op (N : Nat) where
  | Resize (B : Backend N) (width height : Nat) (force : Bool)
  | AcquireNextImage (B : Backend N)
  | Present (B : Backend N)
  | SetLayout (layout : RHI_Image_Layout) (command_list : Option RHI_CommandList)

/-- The swapchain after one call. -/
def Op.apply (op : Op N) (s : RHI_SwapChain N) : RHI_SwapChain N :=
  match op with
  | .Resize B width height force => (Spartan.Resize B s width height force).self
  | .AcquireNextImage B => (Spartan.AcquireNextImage B s).self
  | .Present B => (Spartan.Present B s).self
  | .SetLayout layout command_list => (Spartan.SetLayout s layout command_list).self

/-- The swapchain after a sequence of calls, the first call first. -/
def run (ops : List (Op N)) (s : RHI_SwapChain N) : RHI_SwapChain N :=
  ops.foldl (fun s op => op.apply s) s

/-- The backend that answers during a call, if the call consults one. -/
def Op.backend : Op N → Option (Backend N)
  | .Resize B _ _ _ => some B
  | .AcquireNextImage B => some B
  | .Present B => some B
  | .SetLayout _ _ => none

/-- The resolution given to `Resize`, when the call is a call of `Resize`. -/
def Op.resize_call : Op N → Option (Nat × Nat)
  | .Resize _ width height _ => some (width, height)
  | _ => none

/-- The resolution given to the most recent call of `Resize` in a sequence of calls. -/
def last_resize_call (ops : List (Op N)) : Option (Nat × Nat) :=
  (ops.filterMap Op.resize_call).getLast?

/-- The resolution with which `AcquireNextImage` runs its forced `Resize` (line 367): the
current width and height, when presentation is enabled and the acquire reports out-of-date or
suboptimal; no `Resize` runs otherwise. -/
def AcquireNextImage.resizes (B : Backend N) (s : RHI_SwapChain N) : List (Nat × Nat) :=
  if s.m_present_enabled
      && (B.vkAcquireNextImageKHR.1 == VK_ERROR_OUT_OF_DATE_KHR
        || B.vkAcquireNextImageKHR.1 == VK_SUBOPTIMAL_KHR)
    then [(s.m_width, s.m_height)] else []

/-- The resolutions with which `Resize` runs during `Present`: those of the
`AcquireNextImage` of line 411, when `Present` gets that far. -/
def Present.resizes (B : Backend N) (s : RHI_SwapChain N) : List (Nat × Nat) :=
  if s.m_present_enabled && !(B.IsRecording s.m_cmd_index && !B.Submit s.m_cmd_index)
      && s.m_image_acquired && B.Queue_Present
    then AcquireNextImage.resizes B s else []

/-- The resolutions with which `Resize` runs during one call, whether called by the user of
the swapchain or by `AcquireNextImage`. -/
def Op.resizes (op : Op N) (s : RHI_SwapChain N) : List (Nat × Nat) :=
  match op with
  | .Resize _ width height _ => [(width, height)]
  | .AcquireNextImage B => Spartan.AcquireNextImage.resizes B s
  | .Present B => Spartan.Present.resizes B s
  | .SetLayout _ _ => []

/-- The resolutions with which `Resize` runs during a sequence of calls, in order. -/
def resizes : List (Op N) → RHI_SwapChain N → List (Nat × Nat)
  | [], _ => []
  | op :: ops, s => op.resizes s ++ resizes ops (op.apply s)

/-- Every call of the sequence that consults the device finds `validate` as its
`ValidateResolution`: the calls are made on one device. -/
def on_device (validate : Nat → Nat → Bool) (ops : List (Op N)) : Prop :=
  ∀ op ∈ ops, ∀ B, op.backend = some B → B.ValidateResolution = validate

/-- Every image index that the backend hands out during the sequence of calls is below
`n`. -/
def image_indices_below (n : Nat) (ops : List (Op N)) : Prop :=
  ∀ op ∈ ops, ∀ B, op.backend = some B → B.vkAcquireNextImageKHR.2 < n

/-! ## Render flags (`Runtime/Rendering/Renderer.h`) -/

/-- The enumeration `Renderer_Option : unsigned long`. -/
inductive Renderer_Option where
  | Render_Gizmo_AABB
  | Render_Gizmo_PickingRay
  | Render_Gizmo_Grid
  | Render_Gizmo_Transform
  | Render_Gizmo_Lights
  | Render_Gizmo_PerformanceMetrics
  | Render_Gizmo_Physics
  | Render_PostProcess_Bloom
  | Render_PostProcess_FXAA
  | Render_PostProcess_SSAO
  | Render_PostProcess_SSR
  | Render_PostProcess_TAA
  | Render_PostProcess_MotionBlur
  | Render_PostProcess_Sharpening
  | Render_PostProcess_ChromaticAberration
  | Render_PostProcess_Dithering
  deriving DecidableEq, Repr

/-- The value of an enumerator of `Renderer_Option`. -/
def Renderer_Option.val : Renderer_Option → Nat
  | .Render_Gizmo_AABB => 1 <<< 0
  | .Render_Gizmo_PickingRay => 1 <<< 1
  | .Render_Gizmo_Grid => 1 <<< 2
  | .Render_Gizmo_Transform => 1 <<< 3
  | .Render_Gizmo_Lights => 1 <<< 4
  | .Render_Gizmo_PerformanceMetrics => 1 <<< 5
  | .Render_Gizmo_Physics => 1 <<< 6
  | .Render_PostProcess_Bloom => 1 <<< 7
  | .Render_PostProcess_FXAA => 1 <<< 8
  | .Render_PostProcess_SSAO => 1 <<< 9
  | .Render_PostProcess_SSR => 1 <<< 10
  | .Render_PostProcess_TAA => 1 <<< 11
  | .Render_PostProcess_MotionBlur => 1 <<< 12
  | .Render_PostProcess_Sharpening => 1 <<< 13
  | .Render_PostProcess_ChromaticAberration => 1 <<< 14
  | .Render_PostProcess_Dithering => 1 <<< 15

/-- The method `Renderer::Flags_Enable`, on the member `m_flags`: `m_flags |= flag`. -/
def Renderer.Flags_Enable (m_flags : Nat) (flag : Renderer_Option) : Nat :=
  m_flags ||| flag.val

/-- The method `Renderer::Flags_Disable`, on the member `m_flags`: `m_flags &= ~flag`, where
`~` complements an `unsigned long` of `bits` bits. -/
def Renderer.Flags_Disable (bits : Nat) (m_flags : Nat) (flag : Renderer_Option) : Nat :=
  m_flags &&& (2 ^ bits - 1 - flag.val)

/-- The method `Renderer::Flags_IsSet`: `m_flags & flag`, converted to `bool`. -/
def Renderer.Flags_IsSet (m_flags : Nat) (flag : Renderer_Option) : Bool :=
  (m_flags &&& flag.val) != 0

/-! ## Image importer (`Directus3D/AssetImporting/ImageImporter.cpp`) -/

/-- The members of `ImageImporter` that the copy functions read: the RGBA bytes of the loaded
image, row by row, and its size. -/
structure ImageImporter where
  m_dataRGBA : List Nat
  m_width : Nat
  m_height : Nat
  deriving DecidableEq, Repr

/-- The array `new unsigned char[n]`: `n` bytes of indeterminate content; `indeterminate k` is
what byte `k` happens to hold. -/
def ImageImporter.new_array (n : Nat) (indeterminate : Nat → Nat) : List Nat :=
  (List.range n).map indeterminate

/-- Lines 170-178: the body of the loops of `GetRGBACopy` for row `i` and column `j`. -/
def ImageImporter.GetRGBACopy.pixel (self : ImageImporter) (dataRGBA : List Nat) (i j : Nat) :
    List Nat :=
  let red := self.m_dataRGBA.getD ((i * self.m_width + j) * 4 + 0) 0
  let green := self.m_dataRGBA.getD ((i * self.m_width + j) * 4 + 1) 0
  let blue := self.m_dataRGBA.getD ((i * self.m_width + j) * 4 + 2) 0
  let alpha := self.m_dataRGBA.getD ((i * self.m_width + j) * 4 + 3) 0
  let dataRGBA := dataRGBA.set ((i * self.m_width + j) * 3 + 0) (red % 256)
  let dataRGBA := dataRGBA.set ((i * self.m_width + j) * 3 + 1) (green % 256)
  let dataRGBA := dataRGBA.set ((i * self.m_width + j) * 3 + 2) (blue % 256)
  let dataRGBA := dataRGBA.set ((i * self.m_width + j) * 3 + 3) (alpha % 256)
  dataRGBA

/-- The method `ImageImporter::GetRGBACopy`: the array it returns. -/
def ImageImporter.GetRGBACopy (self : ImageImporter) (indeterminate : Nat → Nat) : List Nat :=
  let dataRGBA := ImageImporter.new_array (self.m_width * self.m_height * 4) indeterminate
  (List.range self.m_height).foldl
    (fun dataRGBA i =>
      (List.range self.m_width).foldl
        (fun dataRGBA j => ImageImporter.GetRGBACopy.pixel self dataRGBA i j) dataRGBA)
    dataRGBA

/-- Lines 193-199: the body of the loops of `GetRGBCopy` for row `i` and column `j`. -/
def ImageImporter.GetRGBCopy.pixel (self : ImageImporter) (m_dataRGB : List Nat) (i j : Nat) :
    List Nat :=
  let red := self.m_dataRGBA.getD ((i * self.m_width + j) * 4 + 0) 0
  let green := self.m_dataRGBA.getD ((i * self.m_width + j) * 4 + 1) 0
  let blue := self.m_dataRGBA.getD ((i * self.m_width + j) * 4 + 2) 0
  let m_dataRGB := m_dataRGB.set ((i * self.m_width + j) * 3 + 0) (red % 256)
  let m_dataRGB := m_dataRGB.set ((i * self.m_width + j) * 3 + 1) (green % 256)
  let m_dataRGB := m_dataRGB.set ((i * self.m_width + j) * 3 + 2) (blue % 256)
  m_dataRGB

/-- The method `ImageImporter::GetRGBCopy`: the array it returns. -/
def ImageImporter.GetRGBCopy (self : ImageImporter) (indeterminate : Nat → Nat) : List Nat :=
  let m_dataRGB := ImageImporter.new_array (self.m_width * self.m_height * 3) indeterminate
  (List.range self.m_height).foldl
    (fun m_dataRGB i =>
      (List.range self.m_width).foldl
        (fun m_dataRGB j => ImageImporter.GetRGBCopy.pixel self m_dataRGB i j) m_dataRGB)
    m_dataRGB

/-- The method `ImageImporter::GetAlphaCopy`: the array it returns. -/
def ImageImporter.GetAlphaCopy (self : ImageImporter) (indeterminate : Nat → Nat) : List Nat :=
  let m_dataAlpha := ImageImporter.new_array (self.m_width * self.m_height) indeterminate
  (List.range self.m_height).foldl
    (fun m_dataAlpha i =>
      (List.range self.m_width).foldl
        (fun m_dataAlpha j =>
          let alpha := self.m_dataRGBA.getD ((i * self.m_width + j) * 4 + 3) 0
          m_dataAlpha.set (i * self.m_width + j) (alpha % 256))
        m_dataAlpha)
    m_dataAlpha

/-! ## Relations and sample data used by the statements -/

/-- The render targets that are bound, as pairs (width, height), in the priority order of the
specification: swapchain, then colour target 0, then depth target. -/
def bound_targets [NeZero N] (d : RHI_PipelineState N) : List (Nat × Nat) :=
  [d.render_target_swapchain.map fun t => (t.GetWidth, t.GetHeight),
   (d.render_target_color_textures 0).map fun t => (t.GetWidth, t.GetHeight),
   d.render_target_depth_texture.map fun t => (t.GetWidth, t.GetHeight)].reduceOption

/-- The first bound render target in the priority order, `none` when no target is bound. -/
def first_bound_target [NeZero N] (d : RHI_PipelineState N) : Option (Nat × Nat) :=
  (bound_targets d).head?

/-- Modelled from the spec: the state of a freshly constructed descriptor. The constructor
`RHI_PipelineState::RHI_PipelineState` has an empty body, so that state is fixed by the default
member initialisers of `RHI_PipelineState.h`, which is not among the verified sources. The
specification calls load/preserve the default that `ResetClearValues` restores, and expects the
hash after a reset to match that of a freshly constructed descriptor; accordingly every clear
value starts as the load marker. The specification does not fix the other members; they are
given as empty here (null pointers, zero numbers, the unknown topology) and no statement
depends on them. -/
def RHI_PipelineState.constructed (K : RHI_Definition) : RHI_PipelineState N where
  shader_vertex := none
  shader_pixel := none
  shader_compute := none
  rasterizer_state := none
  blend_state := none
  depth_stencil_state := none
  render_target_swapchain := none
  primitive_topology := K.RHI_PrimitiveTopology_Unknown
  viewport := ⟨⟨0⟩, ⟨0⟩, ⟨0⟩, ⟨0⟩⟩
  scissor := ⟨⟨0⟩, ⟨0⟩, ⟨0⟩, ⟨0⟩⟩
  dynamic_scissor := false
  vertex_buffer_stride := 0
  render_target_depth_texture := none
  render_target_color_textures := fun _ => none
  render_target_color_layout_initial := 0
  render_target_color_layout_final := 0
  render_target_depth_layout_initial := 0
  render_target_depth_layout_final := 0
  render_target_color_texture_array_index := 0
  render_target_depth_stencil_texture_array_index := 0
  clear_color := fun _ => K.rhi_color_load
  clear_depth := K.rhi_depth_load
  clear_stencil := K.rhi_stencil_load
  pass_name := none
  mark := false
  profile := false
  m_hash := 0

/-- The descriptor `f` after its user has assigned to it the render targets of `d` and every
other member of `d` that `ComputeHash` reads, the clear values excepted: those stay as they
are in `f`. -/
def with_targets_of (d f : RHI_PipelineState N) : RHI_PipelineState N :=
  { f with
    shader_vertex := d.shader_vertex
    shader_pixel := d.shader_pixel
    shader_compute := d.shader_compute
    rasterizer_state := d.rasterizer_state
    blend_state := d.blend_state
    depth_stencil_state := d.depth_stencil_state
    render_target_swapchain := d.render_target_swapchain
    primitive_topology := d.primitive_topology
    viewport := d.viewport
    scissor := d.scissor
    dynamic_scissor := d.dynamic_scissor
    vertex_buffer_stride := d.vertex_buffer_stride
    render_target_depth_texture := d.render_target_depth_texture
    render_target_color_textures := d.render_target_color_textures
    render_target_color_layout_initial := d.render_target_color_layout_initial
    render_target_color_layout_final := d.render_target_color_layout_final
    render_target_depth_layout_initial := d.render_target_depth_layout_initial
    render_target_depth_layout_final := d.render_target_depth_layout_final
    render_target_color_texture_array_index := d.render_target_color_texture_array_index
    render_target_depth_stencil_texture_array_index :=
      d.render_target_depth_stencil_texture_array_index }

/-- Two descriptors agree on every member that `ComputeHash` may read, pointers agreeing by
presence and by the `Id` of the pointee, and the scissor rectangle being compared only when
`dynamic_scissor` is false. Nothing is asked of `pass_name`, nor of the members `profile`,
`mark` and `m_hash` that the class itself derives. -/
structure SameVisibleFields (d1 d2 : RHI_PipelineState N) : Prop where
  shader_vertex : d1.shader_vertex.map RHI_Shader.GetId = d2.shader_vertex.map RHI_Shader.GetId
  shader_pixel : d1.shader_pixel.map RHI_Shader.GetId = d2.shader_pixel.map RHI_Shader.GetId
  shader_compute :
    d1.shader_compute.map RHI_Shader.GetId = d2.shader_compute.map RHI_Shader.GetId
  rasterizer_state :
    d1.rasterizer_state.map RHI_RasterizerState.GetId
      = d2.rasterizer_state.map RHI_RasterizerState.GetId
  blend_state : d1.blend_state.map RHI_BlendState.GetId = d2.blend_state.map RHI_BlendState.GetId
  depth_stencil_state :
    d1.depth_stencil_state.map RHI_DepthStencilState.GetId
      = d2.depth_stencil_state.map RHI_DepthStencilState.GetId
  render_target_swapchain :
    d1.render_target_swapchain.map RHI_SwapChainTarget.GetId
      = d2.render_target_swapchain.map RHI_SwapChainTarget.GetId
  primitive_topology : d1.primitive_topology = d2.primitive_topology
  viewport : d1.viewport = d2.viewport
  dynamic_scissor : d1.dynamic_scissor = d2.dynamic_scissor
  scissor : d1.dynamic_scissor = false → d1.scissor = d2.scissor
  vertex_buffer_stride : d1.vertex_buffer_stride = d2.vertex_buffer_stride
  render_target_depth_texture :
    d1.render_target_depth_texture.map RHI_Texture.GetId
      = d2.render_target_depth_texture.map RHI_Texture.GetId
  render_target_color_textures : ∀ i,
    (d1.render_target_color_textures i).map RHI_Texture.GetId
      = (d2.render_target_color_textures i).map RHI_Texture.GetId
  render_target_color_layout_initial :
    d1.render_target_color_layout_initial = d2.render_target_color_layout_initial
  render_target_color_layout_final :
    d1.render_target_color_layout_final = d2.render_target_color_layout_final
  render_target_depth_layout_initial :
    d1.render_target_depth_layout_initial = d2.render_target_depth_layout_initial
  render_target_depth_layout_final :
    d1.render_target_depth_layout_final = d2.render_target_depth_layout_final
  render_target_color_texture_array_index :
    d1.render_target_color_texture_array_index = d2.render_target_color_texture_array_index
  render_target_depth_stencil_texture_array_index :
    d1.render_target_depth_stencil_texture_array_index
      = d2.render_target_depth_stencil_texture_array_index
  clear_color : d1.clear_color = d2.clear_color
  clear_depth : d1.clear_depth = d2.clear_depth
  clear_stencil : d1.clear_stencil = d2.clear_stencil

namespace Sample

/-- The float `+infinity`. -/
def pos_inf : Float32 := ⟨0x7F800000⟩

/-- The float `-infinity`. -/
def neg_inf : Float32 := ⟨0xFF800000⟩

/-- The float `0.0f`. -/
def zero : Float32 := ⟨0⟩

/-- The float `1.0f`. -/
def one : Float32 := ⟨0x3F800000⟩

/-- Component-wise float comparison of two vectors. -/
def vector4_eq (a b : Vector4) : Bool :=
  a.x.eq b.x && a.y.eq b.y && a.z.eq b.z && a.w.eq b.w

/-- A sample set of constants: the load markers are `+infinity`, the dont-care markers
`-infinity`, the stencil markers the two largest 32-bit values. -/
def K : RHI_Definition where
  rhi_color_dont_care := ⟨neg_inf, zero, zero, zero⟩
  rhi_color_load := ⟨pos_inf, zero, zero, zero⟩
  rhi_depth_dont_care := neg_inf
  rhi_depth_load := pos_inf
  rhi_stencil_dont_care := 2 ^ 32 - 1
  rhi_stencil_load := 2 ^ 32 - 2
  RHI_PrimitiveTopology_Unknown := 2
  Vector4_eq := vector4_eq

/-- The hash of one argument, for the sample `hash_combine`. -/
def hash_value : HashArg → Nat
  | .bool v => if v then 1 else 0
  | .float v => v.bits
  | .int v => (v % 2 ^ 32).toNat
  | .uint32 v => v
  | .uint8 v => v
  | .topology v => v
  | .layout v => v

/-- A sample `hash_combine` on 64-bit seeds:
`seed ^= hash(v) + 0x9e3779b9 + (seed << 6) + (seed >> 2)`. -/
def hash_combine : HashCombine := fun seed v =>
  (seed ^^^ ((hash_value v + 0x9e3779b9 + (seed <<< 6) % 2 ^ 64 + (seed >>> 2)) % 2 ^ 64)) % 2 ^ 64

/-- An 800 x 600 viewport at the origin, as bit patterns. -/
def viewport : RHI_Viewport := ⟨zero, zero, ⟨0x44480000⟩, ⟨0x44160000⟩⟩

/-- A graphics descriptor with two colour slots: compiled vertex and pixel shaders, all three
states, colour target 0 and a depth target, a baked scissor rectangle. -/
def graphics : RHI_PipelineState 2 where
  shader_vertex := some ⟨11, true⟩
  shader_pixel := some ⟨12, true⟩
  shader_compute := none
  rasterizer_state := some ⟨21⟩
  blend_state := some ⟨22⟩
  depth_stencil_state := some ⟨23⟩
  render_target_swapchain := none
  primitive_topology := 0
  viewport := viewport
  scissor := ⟨zero, zero, one, one⟩
  dynamic_scissor := false
  vertex_buffer_stride := 32
  render_target_depth_texture := some ⟨31, 800, 600⟩
  render_target_color_textures := fun i => if i = 0 then some ⟨32, 1024, 768⟩ else none
  render_target_color_layout_initial := 1
  render_target_color_layout_final := 2
  render_target_depth_layout_initial := 3
  render_target_depth_layout_final := 4
  render_target_color_texture_array_index := -1
  render_target_depth_stencil_texture_array_index := -1
  clear_color := fun _ => ⟨zero, zero, zero, one⟩
  clear_depth := one
  clear_stencil := 0
  pass_name := some "Pass_GBuffer"
  mark := false
  profile := false
  m_hash := 0

/-- The descriptor `graphics` with a per-draw scissor rectangle. -/
def dynamic_a : RHI_PipelineState 2 :=
  { graphics with dynamic_scissor := true }

/-- A descriptor that differs from `dynamic_a` in the pass name, in the scissor rectangle, in
the cached hash and in the objects pointed to, which carry the same `Id` as those of
`dynamic_a` but another compilation status or another size. -/
def dynamic_b : RHI_PipelineState 2 :=
  { dynamic_a with
    pass_name := none
    scissor := ⟨one, one, zero, zero⟩
    m_hash := 77
    shader_pixel := some ⟨12, false⟩
    render_target_depth_texture := some ⟨31, 400, 300⟩ }

/-- The descriptor `graphics` with a compiled compute shader set in addition to its vertex
and pixel shaders. -/
def compute_and_vertex : RHI_PipelineState 2 :=
  { graphics with shader_compute := some ⟨13, true⟩ }

/-- A descriptor with a compiled compute shader and a compiled vertex shader and no render
target of any kind. -/
def compute_vertex_no_target : RHI_PipelineState 2 :=
  { graphics with
    shader_compute := some ⟨13, true⟩
    render_target_depth_texture := none
    render_target_color_textures := fun _ => none }

/-- A descriptor with a compiled compute shader, no vertex shader, and both the swapchain and
colour target 0 bound. -/
def compute_swapchain_and_color : RHI_PipelineState 2 :=
  { graphics with
    shader_compute := some ⟨13, true⟩
    shader_vertex := none
    shader_pixel := none
    render_target_swapchain := some ⟨41, 800, 600⟩ }

/-- A descriptor with a compiled compute shader and a compiled vertex shader, without
rasterizer, blend and depth-stencil state and with the unknown topology. -/
def compute_vertex_no_states : RHI_PipelineState 2 :=
  { graphics with
    shader_compute := some ⟨13, true⟩
    rasterizer_state := none
    blend_state := none
    depth_stencil_state := none
    primitive_topology := K.RHI_PrimitiveTopology_Unknown }

/-- A descriptor with a compiled compute shader and a vertex shader that is not compiled. -/
def compute_and_uncompiled_vertex : RHI_PipelineState 2 :=
  { graphics with
    shader_compute := some ⟨13, true⟩
    shader_vertex := some ⟨11, false⟩ }

/-- The descriptor `graphics` without its targets. -/
def graphics_no_target : RHI_PipelineState 2 :=
  { graphics with
    render_target_depth_texture := none
    render_target_color_textures := fun _ => none }

/-- The descriptor `graphics` with the swapchain bound next to colour target 0. -/
def graphics_swapchain_and_color : RHI_PipelineState 2 :=
  { graphics with render_target_swapchain := some ⟨41, 800, 600⟩ }

/-- The descriptor `graphics` without a blend state. -/
def graphics_no_blend : RHI_PipelineState 2 :=
  { graphics with blend_state := none }

/-- The descriptor `graphics` with a pixel shader that is not compiled. -/
def graphics_uncompiled_pixel : RHI_PipelineState 2 :=
  { graphics with shader_pixel := some ⟨12, false⟩ }

/-- A descriptor without compute and vertex shader; everything else as in `graphics`. -/
def no_shader : RHI_PipelineState 2 :=
  { graphics with shader_vertex := none }

/-- The descriptor `graphics` without its colour target: only the depth target is bound. -/
def depth_only : RHI_PipelineState 2 :=
  { graphics with render_target_color_textures := fun _ => none }

/-- The descriptor `graphics` without its depth target: only colour target 0 is bound. -/
def color_only : RHI_PipelineState 2 :=
  { graphics with render_target_depth_texture := none }

/-- The float `0.5f`. -/
def half : Float32 := ⟨0x3F000000⟩

/-- A clear colour other than that of `graphics` and, like it, neither the load nor the
dont-care marker. -/
def other_clear_color : Vector4 := ⟨one, half, zero, one⟩

/-- A sample device and driver: resolutions from 1 x 1 to 16384 x 16384 are valid, every
driver call succeeds, the chain has two images, and the next image is image 1. -/
def backend : Backend 4 where
  ValidateResolution := fun width height =>
    decide (0 < width) && decide (width ≤ 16384) && decide (0 < height) && decide (height ≤ 16384)
  check := fun result => result == VK_SUCCESS
  vkCreateWin32SurfaceKHR := (VK_SUCCESS, 501)
  vkGetPhysicalDeviceSurfaceSupportKHR := (VK_SUCCESS, true)
  capabilities := ⟨1, 1, 16384, 16384⟩
  vkCreateSwapchainKHR := (VK_SUCCESS, 502)
  vkGetSwapchainImagesKHR := [601, 602]
  image_view_create := fun i => (true, 701 + i)
  semaphore_create := fun i => 801 + i
  image_view_destroy := fun _ _ => 0
  vkAcquireNextImageKHR := (VK_SUCCESS, 1)
  IsRecording := fun _ => false
  Submit := fun _ => true
  Queue_Present := true

/-- The sample backend at a moment when the driver reports the swapchain as out of date. -/
def backend_out_of_date : Backend 4 :=
  { backend with vkAcquireNextImageKHR := (VK_ERROR_OUT_OF_DATE_KHR, 0) }

/-- The sample backend at a moment when the active command list is still recording. -/
def backend_recording : Backend 4 :=
  { backend with IsRecording := fun _ => true }

/-- A command list, by its command buffer and its processed semaphore. -/
def command_list : RHI_CommandList := ⟨901, 902⟩

/-- An initialized double-buffered 800 x 600 swapchain with an acquired image. -/
def swapchain : RHI_SwapChain 4 where
  m_initialized := true
  m_present_enabled := true
  m_image_acquired := true
  m_width := 800
  m_height := 600
  m_buffer_count := 2
  m_flags := 0
  m_format := 0
  m_layout := 0
  m_cmd_index := 0
  m_image_index := 0
  m_rhi_device := 1
  m_window_handle := 2
  m_surface := 401
  m_swap_chain_view := 402
  m_cmd_pool := 403
  m_resource := fun i => if i.val < 2 then 410 + i.val else 0
  m_resource_view := fun i => if i.val < 2 then 420 + i.val else 0
  m_image_acquired_semaphore := fun i => if i.val < 2 then 430 + i.val else 0
  m_cmd_lists := [⟨911, 912⟩, ⟨921, 922⟩]

/-- The sample swapchain before any image has been acquired. -/
def swapchain_not_acquired : RHI_SwapChain 4 :=
  { swapchain with m_image_acquired := false }

/-- The sample swapchain while the window is minimized. -/
def swapchain_minimized : RHI_SwapChain 4 :=
  { swapchain with m_present_enabled := false }

/-- A compiled shader `S`. -/
def shader_S : RHI_Shader := ⟨13, true⟩

/-- The descriptor `graphics` with `S` bound as its compute shader and no vertex shader. -/
def compute_S : RHI_PipelineState 2 :=
  { graphics with shader_compute := some shader_S, shader_vertex := none }

/-- The descriptor `graphics` with `S` bound as its vertex shader and no compute shader. -/
def vertex_S : RHI_PipelineState 2 :=
  { graphics with shader_compute := none, shader_vertex := some shader_S }

/-- A sample platform: every non-null window handle is a live window. -/
def platform : Platform where
  IsWindow := fun hwnd => hwnd != 0
  command_pool_create := 403
  make_RHI_CommandList := fun i => ⟨911 + 10 * i, 912 + 10 * i⟩

/-- A device with a backend device handle. -/
def device : RHI_Device := ⟨1, 11⟩

/-- A device without a backend device handle. -/
def device_without_handle : RHI_Device := ⟨1, 0⟩

/-- The construction of a double-buffered 800 x 600 swapchain on window 2 with the sample
backend. -/
def constructed : Outcome (RHI_SwapChain 4) Unit :=
  RHI_SwapChain.construct platform backend backend 2 (some device) 800 600 0 2 0

/-- The sample backend with a driver that creates three images for a chain of at least two
and hands out the third. -/
def backend_three_images : Backend 4 :=
  { backend with
    vkGetSwapchainImagesKHR := [601, 602, 603]
    vkAcquireNextImageKHR := (VK_SUCCESS, 2) }

/-- The sample backend while the window is minimized: the surface reports a 0 x 0 extent as
both its minimum and its maximum. -/
def backend_zero_extent : Backend 4 :=
  { backend with capabilities := ⟨0, 0, 0, 0⟩ }

/-- The sample backend at a moment when `Queue_Present` fails. -/
def backend_present_fails : Backend 4 :=
  { backend with Queue_Present := false }

/-- A resize to 1024 x 768 while the surface reports a 0 x 0 extent, then an acquire that the
driver answers with out-of-date. -/
def resize_then_out_of_date : List (Op 4) :=
  [Op.Resize backend_zero_extent 1024 768 false, Op.AcquireNextImage backend_out_of_date]

/-- A resize to 1024 x 768, a layout change, a present and an acquire, all with the sample
backend. -/
def frame : List (Op 4) :=
  [Op.Resize backend 1024 768 false, Op.SetLayout 3 (some command_list), Op.Present backend,
    Op.AcquireNextImage backend]

/-- A loaded image of two pixels in one row. -/
def image_2x1 : ImageImporter := ⟨[10, 20, 30, 40, 50, 60, 70, 80], 2, 1⟩

/-- Indeterminate content of a new array: here every byte holds 255. -/
def indeterminate : Nat → Nat := fun _ => 255

/-- The construction of a double-buffered 800 x 600 swapchain with a driver that creates three
images. -/
def constructed_three_images : Outcome (RHI_SwapChain 4) Unit :=
  RHI_SwapChain.construct platform backend_three_images backend_three_images 2 (some device)
    800 600 0 2 0

end Sample

/-! ## Auxiliary lemmas on `ComputeHash` -/

theorem ComputeHash.scalars_congr (hc : HashCombine) {d1 d2 : RHI_PipelineState N}
    (h : SameVisibleFields d1 d2) :
    ComputeHash.scalars hc d1 = ComputeHash.scalars hc d2 := by
  have h1 := h.render_target_swapchain
  have h2 := h.scissor
  have h3 := h.dynamic_scissor
  unfold ComputeHash.scalars
  rw [← h.viewport, ← h.primitive_topology, ← h.vertex_buffer_stride,
    ← h.render_target_color_texture_array_index,
    ← h.render_target_depth_stencil_texture_array_index, ← h3]
  cases hs : d1.dynamic_scissor
  · rw [← h2 hs]
    cases ha : d1.render_target_swapchain <;> cases hb : d2.render_target_swapchain <;>
      simp_all
  · cases ha : d1.render_target_swapchain <;> cases hb : d2.render_target_swapchain <;>
      simp_all

theorem ComputeHash.states_congr (hc : HashCombine) {d1 d2 : RHI_PipelineState N}
    (h : SameVisibleFields d1 d2) (m : Nat) :
    ComputeHash.states hc d1 m = ComputeHash.states hc d2 m := by
  have h1 := h.rasterizer_state
  have h2 := h.blend_state
  have h3 := h.depth_stencil_state
  unfold ComputeHash.states
  cases ha : d1.rasterizer_state <;> cases hb : d2.rasterizer_state <;>
    cases hc1 : d1.blend_state <;> cases hd : d2.blend_state <;>
    cases he : d1.depth_stencil_state <;> cases hf : d2.depth_stencil_state <;>
    simp_all

theorem ComputeHash.shaders_congr (hc : HashCombine) {d1 d2 : RHI_PipelineState N}
    (h : SameVisibleFields d1 d2) (m : Nat) :
    ComputeHash.shaders hc d1 m = ComputeHash.shaders hc d2 m := by
  have h1 := h.shader_compute
  have h2 := h.shader_vertex
  have h3 := h.shader_pixel
  unfold ComputeHash.shaders
  cases ha : d1.shader_compute <;> cases hb : d2.shader_compute <;>
    cases hc1 : d1.shader_vertex <;> cases hd : d2.shader_vertex <;>
    cases he : d1.shader_pixel <;> cases hf : d2.shader_pixel <;>
    simp_all

theorem ComputeHash.color_step_congr (K : RHI_Definition) (hc : HashCombine)
    {d1 d2 : RHI_PipelineState N} (h : SameVisibleFields d1 d2) :
    ComputeHash.color_step K hc d1 = ComputeHash.color_step K hc d2 := by
  funext s i
  have h1 := h.render_target_color_textures i
  have h2 := h.clear_color
  unfold ComputeHash.color_step ComputeHash.load_op_color
  cases ha : d1.render_target_color_textures i <;>
    cases hb : d2.render_target_color_textures i <;> simp_all

theorem ComputeHash.render_targets_congr (K : RHI_Definition) (hc : HashCombine)
    {d1 d2 : RHI_PipelineState N} (h : SameVisibleFields d1 d2) (m : Nat) :
    ComputeHash.render_targets K hc d1 m = ComputeHash.render_targets K hc d2 m := by
  have h1 := h.render_target_depth_texture
  have h2 := h.clear_depth
  have h3 := h.clear_stencil
  unfold ComputeHash.render_targets ComputeHash.load_op_depth ComputeHash.load_op_stencil
  rw [ComputeHash.color_step_congr K hc h]
  cases ha : d1.render_target_depth_texture <;>
    cases hb : d2.render_target_depth_texture <;> simp_all

theorem ComputeHash.layouts_congr (hc : HashCombine) {d1 d2 : RHI_PipelineState N}
    (h : SameVisibleFields d1 d2) (b : Bool) (m : Nat) :
    ComputeHash.layouts hc d1 b m = ComputeHash.layouts hc d2 b m := by
  have h1 := h.render_target_depth_texture
  unfold ComputeHash.layouts
  rw [h.render_target_color_layout_initial, h.render_target_color_layout_final,
    h.render_target_depth_layout_initial, h.render_target_depth_layout_final]
  cases ha : d1.render_target_depth_texture <;>
    cases hb : d2.render_target_depth_texture <;> simp_all

theorem ComputeHash.m_hash_congr (K : RHI_Definition) (hc : HashCombine)
    {d1 d2 : RHI_PipelineState N} (h : SameVisibleFields d1 d2) :
    (ComputeHash K hc d1).m_hash = (ComputeHash K hc d2).m_hash := by
  simp only [ComputeHash]
  rw [ComputeHash.scalars_congr hc h, ComputeHash.states_congr hc h,
    ComputeHash.shaders_congr hc h, ComputeHash.render_targets_congr K hc h,
    ComputeHash.layouts_congr hc h]

/-! ## Hash determinism -/

/-- Claim C1. Two pipeline-state descriptors that agree on every member other than
`pass_name` (pointers agreeing by presence and by `Id`), the scissor rectangle being allowed
to differ when `dynamic_scissor` is true, are given the same `m_hash` by `ComputeHash`,
whatever the constants of `RHI_Definition.h` and the function `hash_combine` are. -/
theorem ComputeHash_eq_of_same_visible_fields (K : RHI_Definition) (hash_combine : HashCombine)
    (d1 d2 : RHI_PipelineState N) (h : SameVisibleFields d1 d2) :
    (ComputeHash K hash_combine d1).m_hash = (ComputeHash K hash_combine d2).m_hash :=
  ComputeHash.m_hash_congr K hash_combine h

/-- Witness of C1: `dynamic_a` and `dynamic_b` differ in pass name, scissor rectangle, cached
hash and pointees, agree on the visible fields, and hash alike. -/
theorem ComputeHash_eq_of_same_visible_fields_witness :
    Sample.dynamic_a.pass_name ≠ Sample.dynamic_b.pass_name
      ∧ Sample.dynamic_a.scissor ≠ Sample.dynamic_b.scissor
      ∧ (ComputeHash Sample.K Sample.hash_combine Sample.dynamic_a).m_hash
        = (ComputeHash Sample.K Sample.hash_combine Sample.dynamic_b).m_hash :=
  ⟨by decide, by decide,
    ComputeHash_eq_of_same_visible_fields Sample.K Sample.hash_combine Sample.dynamic_a
      Sample.dynamic_b
      (by constructor <;> first | rfl | decide)⟩

/-! ## Validity -/

/-- Counterexample to claim C2: `compute_and_vertex` has both a compute shader and a vertex
shader set, and `IsValid` returns true for it. -/
theorem IsValid_compute_and_vertex_counterexample :
    Sample.compute_and_vertex.shader_compute.isSome = true
      ∧ Sample.compute_and_vertex.shader_vertex.isSome = true
      ∧ (IsValid Sample.K Sample.compute_and_vertex).2 = true := by
  decide

/-- Claim C2, amended. When both a compute shader and a vertex shader are set, `IsValid`
takes the compute branch: its verdict is true exactly when the compute shader is compiled and
the pixel shader, if one is set, is compiled. The vertex shader is not examined. -/
theorem IsValid_compute_and_vertex [NeZero N] (K : RHI_Definition) (d : RHI_PipelineState N)
    (cs vs : RHI_Shader) (hc : d.shader_compute = some cs) (_hv : d.shader_vertex = some vs) :
    (IsValid K d).2
      = (cs.IsCompiled && (match d.shader_pixel with
          | some ps => ps.IsCompiled
          | none => true)) := by
  cases hp : d.shader_pixel <;> cases hcc : cs.IsCompiled <;> simp [IsValid, hc, hp, hcc]

/-- Witness of the amended C2 at `compute_and_vertex`. -/
theorem IsValid_compute_and_vertex_witness :
    (IsValid Sample.K Sample.compute_and_vertex).2 = (true && true) :=
  IsValid_compute_and_vertex Sample.K Sample.compute_and_vertex ⟨13, true⟩ ⟨11, true⟩ rfl rfl

/-- Counterexample to claim C3: `compute_vertex_no_target` has a vertex shader set and none
of swapchain, colour target 0 and depth target, and `IsValid` returns true for it. -/
theorem IsValid_no_target_counterexample :
    Sample.compute_vertex_no_target.shader_vertex.isSome = true
      ∧ Sample.compute_vertex_no_target.render_target_swapchain = none
      ∧ Sample.compute_vertex_no_target.render_target_color_textures 0 = none
      ∧ Sample.compute_vertex_no_target.render_target_depth_texture = none
      ∧ (IsValid Sample.K Sample.compute_vertex_no_target).2 = true := by
  decide

/-- Claim C3, amended. When no compute shader is set, a vertex shader is set and none of the
swapchain target, colour target 0 and depth target is set, `IsValid` returns false. -/
theorem IsValid_no_target [NeZero N] (K : RHI_Definition) (d : RHI_PipelineState N)
    (vs : RHI_Shader) (hc : d.shader_compute = none) (hv : d.shader_vertex = some vs)
    (hs : d.render_target_swapchain = none) (h0 : d.render_target_color_textures 0 = none)
    (hd : d.render_target_depth_texture = none) :
    (IsValid K d).2 = false := by
  cases hp : d.shader_pixel <;> simp [IsValid, hc, hv, hs, h0, hd, hp]

/-- Witness of the amended C3 at `graphics_no_target`. -/
theorem IsValid_no_target_witness :
    (IsValid Sample.K Sample.graphics_no_target).2 = false :=
  IsValid_no_target Sample.K Sample.graphics_no_target ⟨11, true⟩ rfl rfl rfl rfl rfl

/-- Counterexample to claim C4: `compute_swapchain_and_color` has both the swapchain target
and colour target 0 set, and `IsValid` returns true for it. -/
theorem IsValid_swapchain_and_color_counterexample :
    Sample.compute_swapchain_and_color.render_target_swapchain.isSome = true
      ∧ (Sample.compute_swapchain_and_color.render_target_color_textures 0).isSome = true
      ∧ (IsValid Sample.K Sample.compute_swapchain_and_color).2 = true := by
  decide

/-- Claim C4, amended. When no compute shader is set and both the swapchain render target and
colour render target 0 are set, `IsValid` returns false. -/
theorem IsValid_swapchain_and_color [NeZero N] (K : RHI_Definition) (d : RHI_PipelineState N)
    (sc : RHI_SwapChainTarget) (t : RHI_Texture) (hc : d.shader_compute = none)
    (hs : d.render_target_swapchain = some sc) (h0 : d.render_target_color_textures 0 = some t) :
    (IsValid K d).2 = false := by
  cases hp : d.shader_pixel <;> cases hv : d.shader_vertex <;>
    simp [IsValid, hc, hv, hs, h0, hp]

/-- Witness of the amended C4 at `graphics_swapchain_and_color`. -/
theorem IsValid_swapchain_and_color_witness :
    (IsValid Sample.K Sample.graphics_swapchain_and_color).2 = false :=
  IsValid_swapchain_and_color Sample.K Sample.graphics_swapchain_and_color ⟨41, 800, 600⟩
    ⟨32, 1024, 768⟩ rfl rfl rfl

/-- Claim C5. When neither a compute shader nor a vertex shader is set, `IsValid` returns
false, whatever the pixel shader, the states and the render targets are. -/
theorem IsValid_no_compute_no_vertex [NeZero N] (K : RHI_Definition) (d : RHI_PipelineState N)
    (hc : d.shader_compute = none) (hv : d.shader_vertex = none) :
    (IsValid K d).2 = false := by
  cases hp : d.shader_pixel <;> simp [IsValid, hc, hv, hp]

/-- Witness of C5 at `no_shader`, which has a compiled pixel shader, all states and targets. -/
theorem IsValid_no_compute_no_vertex_witness :
    (IsValid Sample.K Sample.no_shader).2 = false :=
  IsValid_no_compute_no_vertex Sample.K Sample.no_shader rfl rfl

/-- Counterexample to claim C6: `compute_vertex_no_states` has a vertex shader set, no
rasterizer, blend or depth-stencil state and the unknown topology, and `IsValid` returns true
for it. -/
theorem IsValid_missing_state_counterexample :
    Sample.compute_vertex_no_states.shader_vertex.isSome = true
      ∧ Sample.compute_vertex_no_states.rasterizer_state = none
      ∧ Sample.compute_vertex_no_states.blend_state = none
      ∧ Sample.compute_vertex_no_states.depth_stencil_state = none
      ∧ Sample.compute_vertex_no_states.primitive_topology
          = Sample.K.RHI_PrimitiveTopology_Unknown
      ∧ (IsValid Sample.K Sample.compute_vertex_no_states).2 = true := by
  decide

/-- Claim C6, amended. When no compute shader is set, a vertex shader is set, and the
rasterizer state, the blend state or the depth-stencil state is absent or the primitive
topology is `RHI_PrimitiveTopology_Unknown`, `IsValid` returns false. -/
theorem IsValid_missing_state [NeZero N] (K : RHI_Definition) (d : RHI_PipelineState N)
    (vs : RHI_Shader) (hc : d.shader_compute = none) (hv : d.shader_vertex = some vs)
    (h : d.rasterizer_state = none ∨ d.blend_state = none ∨ d.depth_stencil_state = none
      ∨ d.primitive_topology = K.RHI_PrimitiveTopology_Unknown) :
    (IsValid K d).2 = false := by
  cases hp : d.shader_pixel <;> rcases h with h | h | h | h <;>
    simp [IsValid, hc, hv, hp, h]

/-- Witness of the amended C6 at `graphics_no_blend`. -/
theorem IsValid_missing_state_witness :
    (IsValid Sample.K Sample.graphics_no_blend).2 = false :=
  IsValid_missing_state Sample.K Sample.graphics_no_blend ⟨11, true⟩ rfl rfl
    (Or.inr (Or.inl rfl))

/-- Counterexample to claim C7: `compute_and_uncompiled_vertex` references a vertex shader
that reports `IsCompiled() == false`, and `IsValid` returns true for it. -/
theorem IsValid_uncompiled_counterexample :
    Sample.compute_and_uncompiled_vertex.shader_vertex = some ⟨11, false⟩
      ∧ (IsValid Sample.K Sample.compute_and_uncompiled_vertex).2 = true := by
  decide

/-- Claim C7, amended. `IsValid` returns false if the compute shader is set and not compiled,
or the pixel shader is set and not compiled, or no compute shader is set and the vertex shader
is set and not compiled. -/
theorem IsValid_uncompiled [NeZero N] (K : RHI_Definition) (d : RHI_PipelineState N)
    (s : RHI_Shader) (hs : s.IsCompiled = false)
    (h : d.shader_compute = some s ∨ d.shader_pixel = some s
      ∨ (d.shader_compute = none ∧ d.shader_vertex = some s)) :
    (IsValid K d).2 = false := by
  rcases h with h | h | ⟨hc, hv⟩
  · cases hp : d.shader_pixel <;> simp [IsValid, h, hs, hp]
  · cases hc : d.shader_compute <;> cases hv : d.shader_vertex <;> simp [IsValid, h, hs, hc, hv]
  · cases hp : d.shader_pixel <;> simp [IsValid, hc, hv, hs, hp]

/-- Witness of the amended C7 at `graphics_uncompiled_pixel`. -/
theorem IsValid_uncompiled_witness :
    (IsValid Sample.K Sample.graphics_uncompiled_pixel).2 = false :=
  IsValid_uncompiled Sample.K Sample.graphics_uncompiled_pixel ⟨12, false⟩ rfl
    (Or.inr (Or.inl rfl))

/-! ## Extent accessors and clear values -/

/-- Claim C8. `GetWidth` and `GetHeight` return the width and the height of one and the same
target, the first bound one in the priority order swapchain, colour target 0, depth target,
and both return 0 when none of the three is bound. -/
theorem GetWidth_GetHeight_first_bound_target [NeZero N] (d : RHI_PipelineState N) :
    GetWidth d = (match first_bound_target d with
        | some t => t.1
        | none => 0)
      ∧ GetHeight d = (match first_bound_target d with
        | some t => t.2
        | none => 0) := by
  cases hs : d.render_target_swapchain <;> cases h0 : d.render_target_color_textures 0 <;>
    cases hd : d.render_target_depth_texture <;>
    simp [GetWidth, GetHeight, first_bound_target, bound_targets, List.reduceOption, hs, h0, hd]

/-- Witness of C8 at `graphics`, whose colour target 0 is 1024 x 768 and whose depth target is
800 x 600, no swapchain being bound. -/
theorem GetWidth_GetHeight_first_bound_target_witness :
    GetWidth Sample.graphics = 1024 ∧ GetHeight Sample.graphics = 768 :=
  GetWidth_GetHeight_first_bound_target Sample.graphics

/-- Claim C9. After `ResetClearValues`, each of the `rhi_max_render_target_count` colour slots
holds `rhi_color_load`, `clear_depth` holds `rhi_depth_load` and `clear_stencil` holds
`rhi_stencil_load`, whatever the values were before. -/
theorem ResetClearValues_load (K : RHI_Definition) (d : RHI_PipelineState N) :
    (∀ i : Fin N, (ResetClearValues K d).clear_color i = K.rhi_color_load)
      ∧ (ResetClearValues K d).clear_depth = K.rhi_depth_load
      ∧ (ResetClearValues K d).clear_stencil = K.rhi_stencil_load :=
  ⟨fun _ => rfl, rfl, rfl⟩

/-- Claim C10. The hash that `ComputeHash` stores after `ResetClearValues` on `d` is the hash
that `ComputeHash` stores in a freshly constructed descriptor that was given the render targets
and the other hashed members of `d`. -/
theorem ComputeHash_ResetClearValues_eq_constructed (K : RHI_Definition)
    (hash_combine : HashCombine) (d : RHI_PipelineState N) :
    (ComputeHash K hash_combine (ResetClearValues K d)).m_hash
      = (ComputeHash K hash_combine
          (with_targets_of d (RHI_PipelineState.constructed K))).m_hash := by
  apply ComputeHash.m_hash_congr
  constructor <;> first | rfl | (intro _; rfl)

/-! ## What the hash depends on -/

theorem ComputeHash.color_fold_unbound (K : RHI_Definition) (hc : HashCombine)
    (d : RHI_PipelineState N) (h : ∀ i, d.render_target_color_textures i = none)
    (l : List (Fin N)) (s : Nat × Bool) :
    l.foldl (ComputeHash.color_step K hc d) s = s := by
  induction l with
  | nil => rfl
  | cons i l ih => simp [List.foldl_cons, ComputeHash.color_step, h i, ih]

theorem ComputeHash.color_step_same_class (K : RHI_Definition) (hc : HashCombine)
    (d1 d2 : RHI_PipelineState N)
    (ht : d1.render_target_color_textures = d2.render_target_color_textures)
    (hl : ∀ i, (d1.render_target_color_textures i).isSome = true →
      ComputeHash.load_op_color K d1 i = ComputeHash.load_op_color K d2 i) :
    ComputeHash.color_step K hc d1 = ComputeHash.color_step K hc d2 := by
  funext s i
  have h := hl i
  unfold ComputeHash.color_step
  rw [← ht]
  cases ha : d1.render_target_color_textures i with
  | none => rfl
  | some t => simp [ha] at h; simp [h]

/-- Claim C11. `ComputeHash` changes no member of the descriptor other than the cached
`m_hash`; the hash it stores does not depend on the `m_hash` found; and calling it twice in a
row leaves the descriptor that one call leaves. -/
theorem ComputeHash_only_writes_m_hash (K : RHI_Definition) (hash_combine : HashCombine)
    (d : RHI_PipelineState N) (previous : Nat) :
    ComputeHash K hash_combine d = { d with m_hash := (ComputeHash K hash_combine d).m_hash }
      ∧ (ComputeHash K hash_combine { d with m_hash := previous }).m_hash
        = (ComputeHash K hash_combine d).m_hash
      ∧ ComputeHash K hash_combine (ComputeHash K hash_combine d)
        = ComputeHash K hash_combine d :=
  ⟨rfl, rfl, rfl⟩

/-- Claim C12. Render-target members enter the hash only when the target is bound. For a
descriptor with no colour target in any slot, replacing the clear colours and the initial and
final colour layouts by any other values leaves the hash of `ComputeHash` the same; for a
descriptor with no depth texture, so does replacing `clear_depth`, `clear_stencil` and the
initial and final depth layouts. -/
theorem ComputeHash_ignores_unbound_targets (K : RHI_Definition) (hash_combine : HashCombine) :
    (∀ (d : RHI_PipelineState N) (clear_color : Fin N → Vector4)
        (layout_initial layout_final : RHI_Image_Layout),
        (∀ i, d.render_target_color_textures i = none) →
        (ComputeHash K hash_combine
            { d with
              clear_color := clear_color
              render_target_color_layout_initial := layout_initial
              render_target_color_layout_final := layout_final }).m_hash
          = (ComputeHash K hash_combine d).m_hash)
      ∧ (∀ (d : RHI_PipelineState N) (clear_depth : Float32) (clear_stencil : Nat)
        (layout_initial layout_final : RHI_Image_Layout),
        d.render_target_depth_texture = none →
        (ComputeHash K hash_combine
            { d with
              clear_depth := clear_depth
              clear_stencil := clear_stencil
              render_target_depth_layout_initial := layout_initial
              render_target_depth_layout_final := layout_final }).m_hash
          = (ComputeHash K hash_combine d).m_hash) := by
  constructor
  · intro d cc li lf h
    simp only [ComputeHash, ComputeHash.render_targets]
    rw [ComputeHash.color_fold_unbound K hash_combine
        ({ d with
            clear_color := cc
            render_target_color_layout_initial := li
            render_target_color_layout_final := lf } : RHI_PipelineState N) h,
      ComputeHash.color_fold_unbound K hash_combine d h]
    rfl
  · intro d cd cs li lf h
    have hstep : ComputeHash.color_step K hash_combine
        { d with
          clear_depth := cd
          clear_stencil := cs
          render_target_depth_layout_initial := li
          render_target_depth_layout_final := lf }
        = ComputeHash.color_step K hash_combine d := rfl
    simp only [ComputeHash, ComputeHash.render_targets, ComputeHash.layouts, hstep, h]
    rfl

/-- Witness of C12: `depth_only` has no colour target and hashes the same with another clear
colour and other colour layouts; `color_only` has no depth texture and hashes the same with
other depth and stencil clear values and other depth layouts. -/
theorem ComputeHash_ignores_unbound_targets_witness :
    (ComputeHash Sample.K Sample.hash_combine
        { Sample.depth_only with
          clear_color := fun _ => Sample.other_clear_color
          render_target_color_layout_initial := 7
          render_target_color_layout_final := 8 }).m_hash
        = (ComputeHash Sample.K Sample.hash_combine Sample.depth_only).m_hash
      ∧ (ComputeHash Sample.K Sample.hash_combine
        { Sample.color_only with
          clear_depth := Sample.half
          clear_stencil := 5
          render_target_depth_layout_initial := 7
          render_target_depth_layout_final := 8 }).m_hash
        = (ComputeHash Sample.K Sample.hash_combine Sample.color_only).m_hash :=
  ⟨(ComputeHash_ignores_unbound_targets Sample.K Sample.hash_combine).1 Sample.depth_only
      (fun _ => Sample.other_clear_color) 7 8 (fun _ => rfl),
    (ComputeHash_ignores_unbound_targets Sample.K Sample.hash_combine).2 Sample.color_only
      Sample.half 5 7 8 rfl⟩

/-- Claim C13. Clear values enter the hash only through their load operation (0 for the
dont-care marker, 1 for the load marker, 2 for anything else). When the clear values of a
descriptor are replaced by others such that every bound colour slot keeps its load operation
and depth and stencil keep theirs, `ComputeHash` stores the same hash. -/
theorem ComputeHash_same_load_op (K : RHI_Definition) (hash_combine : HashCombine)
    (d : RHI_PipelineState N) (clear_color : Fin N → Vector4) (clear_depth : Float32)
    (clear_stencil : Nat)
    (hcolor : ∀ i, (d.render_target_color_textures i).isSome = true →
      ComputeHash.load_op_color K { d with clear_color := clear_color } i
        = ComputeHash.load_op_color K d i)
    (hdepth : ComputeHash.load_op_depth K { d with clear_depth := clear_depth }
      = ComputeHash.load_op_depth K d)
    (hstencil : ComputeHash.load_op_stencil K { d with clear_stencil := clear_stencil }
      = ComputeHash.load_op_stencil K d) :
    (ComputeHash K hash_combine
        { d with
          clear_color := clear_color
          clear_depth := clear_depth
          clear_stencil := clear_stencil }).m_hash
      = (ComputeHash K hash_combine d).m_hash := by
  have hstep : ComputeHash.color_step K hash_combine
      { d with clear_color := clear_color, clear_depth := clear_depth,
               clear_stencil := clear_stencil }
      = ComputeHash.color_step K hash_combine d :=
    ComputeHash.color_step_same_class K hash_combine _ d rfl hcolor
  have hd : ComputeHash.load_op_depth K
      { d with clear_color := clear_color, clear_depth := clear_depth,
               clear_stencil := clear_stencil }
      = ComputeHash.load_op_depth K d := hdepth
  have hs : ComputeHash.load_op_stencil K
      { d with clear_color := clear_color, clear_depth := clear_depth,
               clear_stencil := clear_stencil }
      = ComputeHash.load_op_stencil K d := hstencil
  simp only [ComputeHash, ComputeHash.render_targets, hstep, hd, hs]
  rfl

/-- Witness of C13: in `graphics`, whose colour target 0 and depth target are bound and whose
clear values are all of the clear kind, other clear values of the clear kind give the same
hash. -/
theorem ComputeHash_same_load_op_witness :
    (ComputeHash Sample.K Sample.hash_combine
        { Sample.graphics with
          clear_color := fun _ => Sample.other_clear_color
          clear_depth := Sample.half
          clear_stencil := 5 }).m_hash
      = (ComputeHash Sample.K Sample.hash_combine Sample.graphics).m_hash :=
  ComputeHash_same_load_op Sample.K Sample.hash_combine Sample.graphics
    (fun _ => Sample.other_clear_color) Sample.half 5 (by decide) (by decide) (by decide)

/-! ## Swapchain: resize, acquire, present, layout -/

/-- Claim C14. For a swapchain whose current size passes the device's resolution validation,
`Resize` to that same size without `force` returns true and makes no call on the device or
the backend (no wait, no destroy, no create); the object afterwards is the object before with
`m_present_enabled` set, so width, height, the image, view and semaphore handles and
`m_initialized` are unchanged. -/
theorem Resize_same_size (B : Backend N) (s : RHI_SwapChain N)
    (hvalid : B.ValidateResolution s.m_width s.m_height = true) :
    (Resize B s s.m_width s.m_height false).ret = true
      ∧ (Resize B s s.m_width s.m_height false).calls = []
      ∧ (Resize B s s.m_width s.m_height false).self = { s with m_present_enabled := true } := by
  simp [Resize, hvalid]

/-- Witness of C14 at the sample swapchain, 800 x 600. -/
theorem Resize_same_size_witness :
    (Resize Sample.backend Sample.swapchain 800 600 false).ret = true
      ∧ (Resize Sample.backend Sample.swapchain 800 600 false).calls = []
      ∧ (Resize Sample.backend Sample.swapchain 800 600 false).self
        = { Sample.swapchain with m_present_enabled := true } :=
  Resize_same_size Sample.backend Sample.swapchain (by decide)

/-- Counterexample to claim C15: the forced `Resize(0, 0, true)` of the sample swapchain, on
a device that rejects 0 x 0, calls neither the backend destroy nor the backend create. -/
theorem Resize_force_counterexample :
    Call.destroy ∉ (Resize Sample.backend Sample.swapchain 0 0 true).calls
      ∧ Call.create 0 0 ∉ (Resize Sample.backend Sample.swapchain 0 0 true).calls
      ∧ (Resize Sample.backend Sample.swapchain 0 0 true).calls = [] := by
  decide

/-- Claim C15, amended. For every width and height that pass the device's resolution
validation, `Resize(width, height, true)` waits for the device, then calls the backend destroy
and the backend create with that size, also when width and height are the current ones. -/
theorem Resize_force (B : Backend N) (s : RHI_SwapChain N) (width height : Nat)
    (hvalid : B.ValidateResolution width height = true) :
    (Resize B s width height true).calls
      = [Call.Queue_WaitAll, Call.destroy, Call.create width height] := by
  simp [Resize, hvalid]

/-- Witness of the amended C15: a forced resize of the sample swapchain to its own size. -/
theorem Resize_force_witness :
    (Resize Sample.backend Sample.swapchain 800 600 true).calls
      = [Call.Queue_WaitAll, Call.destroy, Call.create 800 600] :=
  Resize_force Sample.backend Sample.swapchain 800 600 (by decide)

/-- Claim C16. On a device that rejects the resolution 0 x 0, `Resize(0, 0)` returns true,
makes no call, and leaves the object as it was except that `m_present_enabled` is false; a
`Present` made next, whatever the backend answers, returns true, makes no call (no command
list is submitted, no `Queue_Present`, no `vkAcquireNextImageKHR`) and changes nothing. -/
theorem Resize_zero_then_Present (B B2 : Backend N) (s : RHI_SwapChain N) (force : Bool)
    (hreject : B.ValidateResolution 0 0 = false) :
    (Resize B s 0 0 force).ret = true
      ∧ (Resize B s 0 0 force).calls = []
      ∧ (Resize B s 0 0 force).self = { s with m_present_enabled := false }
      ∧ (Present B2 (Resize B s 0 0 force).self).ret = true
      ∧ (Present B2 (Resize B s 0 0 force).self).calls = []
      ∧ (Present B2 (Resize B s 0 0 force).self).self = (Resize B s 0 0 force).self := by
  simp [Resize, Present, hreject]

/-- Witness of C16 at the sample swapchain, followed by a `Present` while the command list is
recording. -/
theorem Resize_zero_then_Present_witness :
    (Resize Sample.backend Sample.swapchain 0 0 false).ret = true
      ∧ (Resize Sample.backend Sample.swapchain 0 0 false).calls = []
      ∧ (Resize Sample.backend Sample.swapchain 0 0 false).self
        = { Sample.swapchain with m_present_enabled := false }
      ∧ (Present Sample.backend_recording
          (Resize Sample.backend Sample.swapchain 0 0 false).self).ret = true
      ∧ (Present Sample.backend_recording
          (Resize Sample.backend Sample.swapchain 0 0 false).self).calls = []
      ∧ (Present Sample.backend_recording
          (Resize Sample.backend Sample.swapchain 0 0 false).self).self
        = (Resize Sample.backend Sample.swapchain 0 0 false).self :=
  Resize_zero_then_Present Sample.backend Sample.backend_recording Sample.swapchain false
    (by decide)

/-- Claim C17. With presentation enabled and the image-acquired flag false, `Present` returns
false, does not call `Queue_Present`, and leaves the object as it was. -/
theorem Present_without_acquired_image (B : Backend N) (s : RHI_SwapChain N)
    (henabled : s.m_present_enabled = true) (hacquired : s.m_image_acquired = false) :
    (Present B s).ret = false
      ∧ (∀ swap_chain image_index semaphore,
          Call.Queue_Present swap_chain image_index semaphore ∉ (Present B s).calls)
      ∧ (Present B s).self = s := by
  cases hr : B.IsRecording s.m_cmd_index <;> cases hs : B.Submit s.m_cmd_index <;>
    simp [Present, henabled, hacquired, hr, hs]

/-- Witness of C17 at the sample swapchain before any acquire. -/
theorem Present_without_acquired_image_witness :
    (Present Sample.backend Sample.swapchain_not_acquired).ret = false
      ∧ (∀ swap_chain image_index semaphore,
          Call.Queue_Present swap_chain image_index semaphore
            ∉ (Present Sample.backend Sample.swapchain_not_acquired).calls)
      ∧ (Present Sample.backend Sample.swapchain_not_acquired).self
        = Sample.swapchain_not_acquired :=
  Present_without_acquired_image Sample.backend Sample.swapchain_not_acquired rfl rfl

/-- With presentation enabled, the flag and the return value that `AcquireNextImage` leaves
are fixed by the result of `vkAcquireNextImageKHR` alone: the outcome of the forced `Resize`
of line 367 is stored in `m_image_acquired` and overwritten by line 374. -/
theorem AcquireNextImage.flag_and_ret (B : Backend N) (s : RHI_SwapChain N)
    (henabled : s.m_present_enabled = true) :
    (AcquireNextImage B s).self.m_image_acquired = (B.vkAcquireNextImageKHR.1 == VK_SUCCESS)
      ∧ (AcquireNextImage B s).ret = B.check B.vkAcquireNextImageKHR.1 := by
  simp [AcquireNextImage, henabled]

/-- Claim C18, evaluated on the code. The sample swapchain has presentation enabled and the
driver reports it out of date. `AcquireNextImage` then performs the forced `Resize` to the
current 800 x 600, and that `Resize` succeeds; yet `AcquireNextImage` leaves the
image-acquired flag false and returns what `check` makes of the out-of-date result, false. -/
theorem AcquireNextImage_out_of_date_sample :
    Sample.swapchain.m_present_enabled = true
      ∧ Sample.backend_out_of_date.vkAcquireNextImageKHR.1 = VK_ERROR_OUT_OF_DATE_KHR
      ∧ (AcquireNextImage Sample.backend_out_of_date Sample.swapchain).calls
        = [Call.vkAcquireNextImageKHR 402 430, Call.Queue_WaitAll, Call.destroy,
            Call.create 800 600]
      ∧ (Resize Sample.backend_out_of_date Sample.swapchain 800 600 true).ret = true
      ∧ (AcquireNextImage Sample.backend_out_of_date Sample.swapchain).self.m_initialized = true
      ∧ (AcquireNextImage Sample.backend_out_of_date Sample.swapchain).self.m_image_acquired
        = false
      ∧ (AcquireNextImage Sample.backend_out_of_date Sample.swapchain).ret = false := by
  decide

/-- Claim C19. With `m_present_enabled` false, `AcquireNextImage` returns true, makes no call
(no `vkAcquireNextImageKHR`), and leaves the object as it was: image index, command-list
index, image-acquired flag, dimensions and handles included. -/
theorem AcquireNextImage_disabled (B : Backend N) (s : RHI_SwapChain N)
    (hdisabled : s.m_present_enabled = false) :
    (AcquireNextImage B s).ret = true
      ∧ (AcquireNextImage B s).calls = []
      ∧ (AcquireNextImage B s).self = s := by
  simp [AcquireNextImage, hdisabled]

/-- Witness of C19 at the minimized sample swapchain. -/
theorem AcquireNextImage_disabled_witness :
    (AcquireNextImage Sample.backend Sample.swapchain_minimized).ret = true
      ∧ (AcquireNextImage Sample.backend Sample.swapchain_minimized).calls = []
      ∧ (AcquireNextImage Sample.backend Sample.swapchain_minimized).self
        = Sample.swapchain_minimized :=
  AcquireNextImage_disabled Sample.backend Sample.swapchain_minimized rfl

/-- Claim C20. After `SetLayout(layout, command_list)` the tracked layout is `layout` and no
other member has changed, with or without a command list. When the tracked layout already
was `layout`, nothing changes and no transition is emitted. Otherwise the transitions emitted
are, with a command list, one `set_layout` to `layout` for each index below `m_buffer_count`,
on that command list's buffer and the image of that index, and none without a command list.
A second `SetLayout(layout, command_list)` changes nothing and emits nothing. -/
theorem SetLayout_idempotent (s : RHI_SwapChain N) (layout : RHI_Image_Layout)
    (command_list : Option RHI_CommandList) :
    (SetLayout s layout command_list).self = { s with m_layout := layout }
      ∧ (s.m_layout = layout →
          (SetLayout s layout command_list).self = s
            ∧ (SetLayout s layout command_list).calls = [])
      ∧ (s.m_layout ≠ layout →
          (∀ c, command_list = some c →
            (SetLayout s layout command_list).calls
              = (List.range s.m_buffer_count).map fun i =>
                  Call.set_layout c.GetResource_CommandBuffer (array_at s.m_resource i) layout)
            ∧ (command_list = none → (SetLayout s layout command_list).calls = []))
      ∧ ((SetLayout s layout command_list).calls.length
          = if s.m_layout = layout ∨ command_list = none then 0 else s.m_buffer_count)
      ∧ (SetLayout (SetLayout s layout command_list).self layout command_list).self
          = (SetLayout s layout command_list).self
      ∧ (SetLayout (SetLayout s layout command_list).self layout command_list).calls = [] := by
  by_cases h : s.m_layout = layout
  · subst h
    simp [SetLayout]
  · cases command_list <;> simp [SetLayout, h]

/-- Witness of C20: moving the sample swapchain from layout 0 to layout 3 with a command list
emits one transition for each of its two buffered images. -/
theorem SetLayout_idempotent_witness :
    (SetLayout Sample.swapchain 3 (some Sample.command_list)).self.m_layout = 3
      ∧ (SetLayout Sample.swapchain 3 (some Sample.command_list)).calls
        = [Call.set_layout 901 410 3, Call.set_layout 901 411 3]
      ∧ (SetLayout (SetLayout Sample.swapchain 3 (some Sample.command_list)).self 3
          (some Sample.command_list)).calls = [] :=
  ⟨congrArg RHI_SwapChain.m_layout
      (SetLayout_idempotent Sample.swapchain 3 (some Sample.command_list)).1,
    ((SetLayout_idempotent Sample.swapchain 3 (some Sample.command_list)).2.2.1 (by decide)).1
      Sample.command_list rfl,
    (SetLayout_idempotent Sample.swapchain 3 (some Sample.command_list)).2.2.2.2.2⟩

/-! ## Swapchain: command-list index and present -/

/-- With presentation enabled, `AcquireNextImage` leaves the command-list index at its old
value modulo `m_buffer_count`: the increment of line 352 is overwritten by the assignment. -/
theorem AcquireNextImage.cmd_index (B : Backend N) (s : RHI_SwapChain N)
    (henabled : s.m_present_enabled = true) :
    (AcquireNextImage B s).self.m_cmd_index = s.m_cmd_index % s.m_buffer_count := by
  simp only [AcquireNextImage, henabled, Resize]
  split <;> (try split) <;> (try split) <;> simp_all

/-- Claim C21, evaluated on the code. The sample swapchain has presentation enabled, two
buffers and command-list index 0. After `AcquireNextImage` the index is 0 again, not
`(0 + 1) mod 2 = 1`; and from index 1 it stays 1, not `(1 + 1) mod 2 = 0`. -/
theorem AcquireNextImage_cmd_index_sample :
    Sample.swapchain.m_present_enabled = true
      ∧ Sample.swapchain.m_buffer_count = 2
      ∧ Sample.swapchain.m_cmd_index = 0
      ∧ (AcquireNextImage Sample.backend Sample.swapchain).ret = true
      ∧ (AcquireNextImage Sample.backend Sample.swapchain).self.m_cmd_index = 0
      ∧ (AcquireNextImage Sample.backend
          { Sample.swapchain with m_cmd_index := 1 }).self.m_cmd_index = 1 := by
  decide

theorem AcquireNextImage.no_Queue_Present (B : Backend N) (s : RHI_SwapChain N)
    (swap_chain : Handle) (image_index : Nat) (semaphore : Handle) :
    Call.Queue_Present swap_chain image_index semaphore ∉ (AcquireNextImage B s).calls := by
  simp only [AcquireNextImage, Resize]
  split <;> (try split) <;> (try split) <;> (try split) <;> simp_all

/-- Claim C22. With presentation enabled, the active command list not recording and the
image-acquired flag true, `Present` calls `Queue_Present` first and once, with the swapchain,
the current image index and the processed semaphore of the active command list. If
`Queue_Present` succeeds, `Present` goes on with `AcquireNextImage`: the calls, the object
left and the value returned are those of that `AcquireNextImage`, which itself never calls
`Queue_Present`. If `Queue_Present` fails, `Present` returns false, makes no further call and
leaves the object as it was. -/
theorem Present_then_acquire (B : Backend N) (s : RHI_SwapChain N)
    (henabled : s.m_present_enabled = true)
    (hrecording : B.IsRecording s.m_cmd_index = false)
    (hacquired : s.m_image_acquired = true) :
    (B.Queue_Present = true →
        (Present B s).calls
            = Call.Queue_Present s.m_swap_chain_view s.m_image_index
                (match s.m_cmd_lists[s.m_cmd_index]? with
                  | some c => c.GetProcessedSemaphore
                  | none => 0)
              :: (AcquireNextImage B s).calls
          ∧ (∀ swap_chain image_index semaphore,
              Call.Queue_Present swap_chain image_index semaphore
                ∉ (AcquireNextImage B s).calls)
          ∧ (Present B s).ret = (AcquireNextImage B s).ret
          ∧ (Present B s).self = (AcquireNextImage B s).self)
      ∧ (B.Queue_Present = false →
        (Present B s).calls
            = [Call.Queue_Present s.m_swap_chain_view s.m_image_index
                (match s.m_cmd_lists[s.m_cmd_index]? with
                  | some c => c.GetProcessedSemaphore
                  | none => 0)]
          ∧ (Present B s).ret = false
          ∧ (Present B s).self = s) := by
  constructor
  · intro hpresent
    refine ⟨?_, fun a b c => AcquireNextImage.no_Queue_Present B s a b c, ?_, ?_⟩ <;>
      cases hr : (AcquireNextImage B s).ret <;>
      simp [Present, henabled, hrecording, hacquired, hpresent, hr]
  · intro hpresent
    simp [Present, henabled, hrecording, hacquired, hpresent]

/-- Witness of C22 at the sample swapchain: a present that succeeds, and one that fails. -/
theorem Present_then_acquire_witness :
    ((Present Sample.backend Sample.swapchain).calls
        = [Call.Queue_Present 402 0 912, Call.vkAcquireNextImageKHR 402 430]
      ∧ (Present Sample.backend Sample.swapchain).ret = true)
      ∧ ((Present Sample.backend_present_fails Sample.swapchain).calls
        = [Call.Queue_Present 402 0 912]
      ∧ (Present Sample.backend_present_fails Sample.swapchain).ret = false) :=
  ⟨⟨((Present_then_acquire Sample.backend Sample.swapchain rfl rfl rfl).1 rfl).1,
      ((Present_then_acquire Sample.backend Sample.swapchain rfl rfl rfl).1 rfl).2.2.1⟩,
    ⟨((Present_then_acquire Sample.backend_present_fails Sample.swapchain rfl rfl rfl).2 rfl).1,
      ((Present_then_acquire Sample.backend_present_fails Sample.swapchain rfl rfl rfl).2
        rfl).2.1⟩⟩

/-! ## Swapchain: what a call leaves in place -/

theorem Resize_members (B : Backend N) (s : RHI_SwapChain N) (width height : Nat)
    (force : Bool) :
    (Resize B s width height force).self.m_present_enabled = B.ValidateResolution width height
      ∧ (Resize B s width height force).self.m_buffer_count = s.m_buffer_count
      ∧ (Resize B s width height force).self.m_cmd_lists = s.m_cmd_lists
      ∧ (Resize B s width height force).self.m_image_index = s.m_image_index := by
  simp only [Resize]
  split <;> (try split) <;> simp_all

theorem SetLayout_members (s : RHI_SwapChain N) (layout : RHI_Image_Layout)
    (command_list : Option RHI_CommandList) :
    (SetLayout s layout command_list).self.m_present_enabled = s.m_present_enabled
      ∧ (SetLayout s layout command_list).self.m_buffer_count = s.m_buffer_count
      ∧ (SetLayout s layout command_list).self.m_cmd_lists = s.m_cmd_lists
      ∧ (SetLayout s layout command_list).self.m_image_index = s.m_image_index := by
  simp only [SetLayout]
  split <;> simp

theorem AcquireNextImage_members (B : Backend N) (s : RHI_SwapChain N) :
    (AcquireNextImage B s).self.m_buffer_count = s.m_buffer_count
      ∧ (AcquireNextImage B s).self.m_cmd_lists = s.m_cmd_lists
      ∧ ((AcquireNextImage B s).self.m_image_index = s.m_image_index
        ∨ (AcquireNextImage B s).self.m_image_index = B.vkAcquireNextImageKHR.2) := by
  simp only [AcquireNextImage, Resize]
  split <;> (try split) <;> (try split) <;> (try split) <;> simp_all

theorem Present_members (B : Backend N) (s : RHI_SwapChain N) :
    (Present B s).self.m_buffer_count = s.m_buffer_count
      ∧ (Present B s).self.m_cmd_lists = s.m_cmd_lists
      ∧ ((Present B s).self.m_image_index = s.m_image_index
        ∨ (Present B s).self.m_image_index = B.vkAcquireNextImageKHR.2) := by
  have h := AcquireNextImage_members B s
  simp only [Present]
  split <;> (try split) <;> (try split) <;> (try split) <;> (try split) <;> simp_all

theorem AcquireNextImage_present_enabled (B : Backend N) (s : RHI_SwapChain N) :
    (AcquireNextImage B s).self.m_present_enabled
      = (match (AcquireNextImage.resizes B s).getLast? with
        | some r => B.ValidateResolution r.1 r.2
        | none => s.m_present_enabled) := by
  simp only [AcquireNextImage, AcquireNextImage.resizes, Resize]
  cases he : s.m_present_enabled <;>
    cases h1 : (B.vkAcquireNextImageKHR.1 == VK_ERROR_OUT_OF_DATE_KHR) <;>
    cases h2 : (B.vkAcquireNextImageKHR.1 == VK_SUBOPTIMAL_KHR) <;>
    cases hv : B.ValidateResolution s.m_width s.m_height <;>
    simp_all

theorem Present_present_enabled (B : Backend N) (s : RHI_SwapChain N) :
    (Present B s).self.m_present_enabled
      = (match (Present.resizes B s).getLast? with
        | some r => B.ValidateResolution r.1 r.2
        | none => s.m_present_enabled) := by
  have h := AcquireNextImage_present_enabled B s
  simp only [Present, Present.resizes]
  cases he : s.m_present_enabled <;>
    cases hr : B.IsRecording s.m_cmd_index <;>
    cases hs : B.Submit s.m_cmd_index <;>
    cases ha : s.m_image_acquired <;>
    cases hq : B.Queue_Present <;>
    cases hret : (AcquireNextImage B s).ret <;>
    simp_all

theorem Op.apply_members (op : Op N) (s : RHI_SwapChain N) :
    (op.apply s).m_buffer_count = s.m_buffer_count
      ∧ (op.apply s).m_cmd_lists = s.m_cmd_lists
      ∧ ((op.apply s).m_image_index = s.m_image_index
        ∨ ∃ B, op.backend = some B ∧ (op.apply s).m_image_index = B.vkAcquireNextImageKHR.2) := by
  cases op with
  | Resize B width height force =>
    have h := Resize_members B s width height force
    exact ⟨h.2.1, h.2.2.1, Or.inl h.2.2.2⟩
  | AcquireNextImage B =>
    have h := AcquireNextImage_members B s
    exact ⟨h.1, h.2.1, h.2.2.imp id fun h => ⟨B, rfl, h⟩⟩
  | Present B =>
    have h := Present_members B s
    exact ⟨h.1, h.2.1, h.2.2.imp id fun h => ⟨B, rfl, h⟩⟩
  | SetLayout layout command_list =>
    have h := SetLayout_members s layout command_list
    exact ⟨h.2.1, h.2.2.1, Or.inl h.2.2.2⟩

theorem Op.apply_present_enabled (validate : Nat → Nat → Bool) (op : Op N)
    (s : RHI_SwapChain N) (hdev : ∀ B, op.backend = some B → B.ValidateResolution = validate) :
    (op.apply s).m_present_enabled
      = (match (op.resizes s).getLast? with
        | some r => validate r.1 r.2
        | none => s.m_present_enabled) := by
  cases op with
  | Resize B width height force =>
    rw [← hdev B rfl]
    exact (Resize_members B s width height force).1
  | AcquireNextImage B =>
    rw [← hdev B rfl]
    exact AcquireNextImage_present_enabled B s
  | Present B =>
    rw [← hdev B rfl]
    exact Present_present_enabled B s
  | SetLayout layout command_list => exact (SetLayout_members s layout command_list).1

theorem run_cons (op : Op N) (ops : List (Op N)) (s : RHI_SwapChain N) :
    run (op :: ops) s = run ops (op.apply s) := rfl

theorem run_present_enabled (validate : Nat → Nat → Bool) (ops : List (Op N)) :
    ∀ s : RHI_SwapChain N, on_device validate ops →
      (run ops s).m_present_enabled
        = (match (resizes ops s).getLast? with
          | some r => validate r.1 r.2
          | none => s.m_present_enabled) := by
  induction ops with
  | nil => intro s _; rfl
  | cons op ops ih =>
    intro s hdev
    have hop := Op.apply_present_enabled validate op s
      (fun B hB => hdev op (List.mem_cons_self _ _) B hB)
    have hrest := ih (op.apply s) (fun o ho => hdev o (List.mem_cons_of_mem _ ho))
    rw [run_cons, hrest, resizes, List.getLast?_append, hop]
    cases (resizes ops (op.apply s)).getLast? <;> cases (op.resizes s).getLast? <;> rfl

theorem run_members (n : Nat) (ops : List (Op N)) :
    ∀ s : RHI_SwapChain N,
      (run ops s).m_buffer_count = s.m_buffer_count
        ∧ (run ops s).m_cmd_lists = s.m_cmd_lists
        ∧ (image_indices_below n ops → s.m_image_index < n → (run ops s).m_image_index < n) := by
  induction ops with
  | nil => intro s; exact ⟨rfl, rfl, fun _ h => h⟩
  | cons op ops ih =>
    intro s
    have hop := Op.apply_members op s
    have hrest := ih (op.apply s)
    rw [run_cons]
    refine ⟨hrest.1.trans hop.1, hrest.2.1.trans hop.2.1, fun hbelow hs => ?_⟩
    apply hrest.2.2 (fun o ho => hbelow o (List.mem_cons_of_mem _ ho))
    rcases hop.2.2 with h | ⟨B, hB, h⟩
    · rw [h]; exact hs
    · rw [h]; exact hbelow op (List.mem_cons_self _ _) B hB

/-! ## Swapchain: construction -/

theorem AcquireNextImage.image_index (B : Backend N) (s : RHI_SwapChain N)
    (henabled : s.m_present_enabled = true) :
    (AcquireNextImage B s).self.m_image_index = B.vkAcquireNextImageKHR.2 := by
  simp only [AcquireNextImage, henabled, Resize]
  split <;> (try split) <;> (try split) <;> simp_all

theorem RHI_SwapChain.construct_members (P : Platform) (B B2 : Backend N)
    (window_handle : Handle) (rhi_device : Option RHI_Device)
    (width height format buffer_count flags : Nat)
    (hinit : (RHI_SwapChain.construct P B B2 window_handle rhi_device width height format
      buffer_count flags).self.m_initialized = true) :
    (RHI_SwapChain.construct P B B2 window_handle rhi_device width height format buffer_count
        flags).self.m_buffer_count = buffer_count
      ∧ (RHI_SwapChain.construct P B B2 window_handle rhi_device width height format
        buffer_count flags).self.m_image_index = B2.vkAcquireNextImageKHR.2 := by
  cases rhi_device with
  | none => simp [RHI_SwapChain.construct, RHI_SwapChain.defaults] at hinit
  | some d =>
    by_cases h1 : d.device = 0
    · simp [RHI_SwapChain.construct, RHI_SwapChain.defaults, h1] at hinit
    · cases h2 : B.ValidateResolution width height
      · simp [RHI_SwapChain.construct, RHI_SwapChain.defaults, h1, h2] at hinit
      · by_cases h3 : window_handle = 0
        · simp [RHI_SwapChain.construct, RHI_SwapChain.defaults, h1, h2, h3] at hinit
        · cases h4 : P.IsWindow window_handle
          · simp [RHI_SwapChain.construct, RHI_SwapChain.defaults, h1, h2, h3, h4] at hinit
          · have h1b : (d.device == 0) = false := by simpa using h1
            have h3b : (window_handle == 0) = false := by simpa using h3
            simp only [RHI_SwapChain.construct, h1b, h2, h3b, h4, Bool.not_true,
              Bool.or_self, Bool.false_eq_true, ↓reduceIte]
            exact ⟨(AcquireNextImage_members B2 _).1,
              AcquireNextImage.image_index B2 _ rfl⟩

/-! ## Swapchain: invariants of sequences of calls -/

/-- Counterexample to claim C23. From the constructed sample swapchain, a `Resize` to
1024 x 768, which the device accepts, while the surface reports a 0 x 0 extent, and then an
`AcquireNextImage` answered with out-of-date: presentation is enabled before the
`AcquireNextImage` and disabled after it, although the most recent call of `Resize` was given
an accepted resolution. -/
theorem present_enabled_counterexample :
    Sample.constructed.self.m_initialized = true
      ∧ last_resize_call Sample.resize_then_out_of_date = some (1024, 768)
      ∧ Sample.backend_zero_extent.ValidateResolution 1024 768 = true
      ∧ Sample.backend_out_of_date.ValidateResolution 1024 768 = true
      ∧ (run [Op.Resize Sample.backend_zero_extent 1024 768 false]
          Sample.constructed.self).m_present_enabled = true
      ∧ (run Sample.resize_then_out_of_date Sample.constructed.self).m_present_enabled
        = false := by
  decide

/-- Claim C23, amended. Along any sequence of `Resize`, `AcquireNextImage`, `Present` and
`SetLayout` calls on one device, from any state and so from a constructed one,
`m_present_enabled` is the verdict of the device's `ValidateResolution` on the resolution of
the most recent `Resize` that ran, the forced `Resize` to the current size inside
`AcquireNextImage` counted, and is what it was at the start when no `Resize` ran. `SetLayout`
never changes it; `AcquireNextImage` and `Present` leave it as it is when they run no
`Resize`. -/
theorem present_enabled_last_resize (validate : Nat → Nat → Bool) (ops : List (Op N))
    (s : RHI_SwapChain N) (hdevice : on_device validate ops) :
    (run ops s).m_present_enabled
        = (match (resizes ops s).getLast? with
          | some r => validate r.1 r.2
          | none => s.m_present_enabled)
      ∧ (∀ layout command_list,
          (SetLayout s layout command_list).self.m_present_enabled = s.m_present_enabled)
      ∧ (∀ B : Backend N, AcquireNextImage.resizes B s = [] →
          (AcquireNextImage B s).self.m_present_enabled = s.m_present_enabled)
      ∧ (∀ B : Backend N, Present.resizes B s = [] →
          (Present B s).self.m_present_enabled = s.m_present_enabled) := by
  refine ⟨run_present_enabled validate ops s hdevice,
    fun layout command_list => (SetLayout_members s layout command_list).1, ?_, ?_⟩
  · intro B h
    rw [AcquireNextImage_present_enabled, h]
    rfl
  · intro B h
    rw [Present_present_enabled, h]
    rfl

/-- Witness of the amended C23: along the sequence `frame` from the constructed sample
swapchain the only `Resize` that runs is the one to 1024 x 768, which the sample device
accepts, and presentation is enabled at the end. -/
theorem present_enabled_last_resize_witness :
    resizes Sample.frame Sample.constructed.self = [(1024, 768)]
      ∧ (run Sample.frame Sample.constructed.self).m_present_enabled
        = (match (resizes Sample.frame Sample.constructed.self).getLast? with
          | some r => Sample.backend.ValidateResolution r.1 r.2
          | none => Sample.constructed.self.m_present_enabled) :=
  ⟨by decide,
    (present_enabled_last_resize Sample.backend.ValidateResolution Sample.frame
      Sample.constructed.self (by
        intro op hop B hB
        simp only [Sample.frame, List.mem_cons, List.mem_singleton, List.not_mem_nil,
          or_false] at hop
        rcases hop with h | h | h | h <;> subst h <;>
          simp only [Op.backend, Option.some.injEq, reduceCtorEq] at hB <;> subst hB <;>
          rfl)).1⟩

/-- Counterexample to claim C24. A double-buffered swapchain constructed on a driver that
creates three images and hands out the third is initialized, and its current image index, 2,
is not below its buffer count, 2. -/
theorem image_index_counterexample :
    Sample.constructed_three_images.self.m_initialized = true
      ∧ Sample.constructed_three_images.self.m_buffer_count = 2
      ∧ Sample.constructed_three_images.self.m_image_index = 2
      ∧ run [] Sample.constructed_three_images.self = Sample.constructed_three_images.self :=
  ⟨by decide, by decide, by decide, rfl⟩

/-- Claim C24, amended. In every state reached from a successfully constructed swapchain by a
sequence of `Resize`, `AcquireNextImage`, `Present` and `SetLayout` calls, the current image
index is below the buffer count, provided every image index that `vkAcquireNextImageKHR` hands
out, during construction and during the calls, is below the buffer count asked for. -/
theorem image_index_lt_buffer_count (P : Platform) (B B2 : Backend N)
    (window_handle : Handle) (rhi_device : Option RHI_Device)
    (width height format buffer_count flags : Nat) (ops : List (Op N))
    (hinit : (RHI_SwapChain.construct P B B2 window_handle rhi_device width height format
      buffer_count flags).self.m_initialized = true)
    (hfirst : B2.vkAcquireNextImageKHR.2 < buffer_count)
    (hbelow : image_indices_below buffer_count ops) :
    (run ops (RHI_SwapChain.construct P B B2 window_handle rhi_device width height format
        buffer_count flags).self).m_image_index
      < (run ops (RHI_SwapChain.construct P B B2 window_handle rhi_device width height format
        buffer_count flags).self).m_buffer_count := by
  have hc := RHI_SwapChain.construct_members P B B2 window_handle rhi_device width height
    format buffer_count flags hinit
  have hr := run_members buffer_count ops (RHI_SwapChain.construct P B B2 window_handle
    rhi_device width height format buffer_count flags).self
  rw [hr.1, hc.1]
  exact hr.2.2 hbelow (hc.2 ▸ hfirst)

/-- Witness of the amended C24: the sample backend hands out image 1 of 2, at construction
and along the sequence `frame`. -/
theorem image_index_lt_buffer_count_witness :
    (run Sample.frame Sample.constructed.self).m_image_index
      < (run Sample.frame Sample.constructed.self).m_buffer_count :=
  image_index_lt_buffer_count Sample.platform Sample.backend Sample.backend 2
    (some Sample.device) 800 600 0 2 0 Sample.frame (by decide) (by decide) (by
      intro op hop B hB
      simp only [Sample.frame, List.mem_cons, List.mem_singleton, List.not_mem_nil,
        or_false] at hop
      rcases hop with h | h | h | h <;> subst h <;>
        simp only [Op.backend, Option.some.injEq, reduceCtorEq] at hB <;> subst hB <;>
        decide)

/-- Claim C25. No sequence of `Resize` (forced or not), `AcquireNextImage`, `Present` and
`SetLayout` calls changes `m_buffer_count` or the command-list contexts: after the calls both
are what they were before, that is what construction left. -/
theorem buffer_count_fixed (ops : List (Op N)) (s : RHI_SwapChain N) :
    (run ops s).m_buffer_count = s.m_buffer_count
      ∧ (run ops s).m_cmd_lists = s.m_cmd_lists
      ∧ (run ops s).m_cmd_lists.length = s.m_cmd_lists.length :=
  ⟨(run_members 0 ops s).1, (run_members 0 ops s).2.1,
    congrArg List.length (run_members 0 ops s).2.1⟩

theorem Renderer.and_two_pow_ne_zero (x j : Nat) : ((x &&& 2 ^ j) != 0) = x.testBit j := by
  cases h : x.testBit j with
  | false =>
    have h0 : x &&& 2 ^ j = 0 := by
      apply Nat.eq_of_testBit_eq
      intro i
      rw [Nat.testBit_and, Nat.testBit_two_pow, Nat.zero_testBit]
      by_cases hji : j = i
      · subst hji; simp [h]
      · simp [hji]
    simp [h0]
  | true =>
    have h1 : (x &&& 2 ^ j).testBit j = true := by
      rw [Nat.testBit_and, Nat.testBit_two_pow_self, h]; rfl
    have h0 : x &&& 2 ^ j ≠ 0 := by
      intro hz
      rw [hz, Nat.zero_testBit] at h1
      exact Bool.noConfusion h1
    simpa using h0

theorem Renderer_Option.val_two_pow (f : Renderer_Option) : ∃ k, k < 16 ∧ f.val = 2 ^ k := by
  cases f <;> simp only [Renderer_Option.val, Nat.one_shiftLeft] <;> refine ⟨_, ?_, rfl⟩ <;>
    decide

theorem Renderer_Option.val_injective (f g : Renderer_Option) (h : f.val = g.val) : f = g := by
  cases f <;> cases g <;> first | rfl | exact absurd h (by decide)

/-- Claim C27. The render-flag operations act as a bit set over `Renderer_Option`, for an
`unsigned long` of at least 32 bits: whatever the flag word, `Flags_IsSet(f)` is true after
`Flags_Enable(f)` and false after `Flags_Disable(f)`, and for an option `g` other than `f`
neither changes `Flags_IsSet(g)`; the value of every option is a single bit among the first
16, and two different options share no bit. -/
theorem Flags_bit_set (bits : Nat) (hbits : 32 ≤ bits) (m_flags : Nat)
    (f g : Renderer_Option) :
    Renderer.Flags_IsSet (Renderer.Flags_Enable m_flags f) f = true
      ∧ Renderer.Flags_IsSet (Renderer.Flags_Disable bits m_flags f) f = false
      ∧ (g ≠ f →
        Renderer.Flags_IsSet (Renderer.Flags_Enable m_flags f) g
            = Renderer.Flags_IsSet m_flags g
          ∧ Renderer.Flags_IsSet (Renderer.Flags_Disable bits m_flags f) g
            = Renderer.Flags_IsSet m_flags g)
      ∧ (∃ k, k < 16 ∧ f.val = 2 ^ k)
      ∧ (g ≠ f → f.val &&& g.val = 0) := by
  obtain ⟨k, hk, hf⟩ := Renderer_Option.val_two_pow f
  obtain ⟨j, hj, hg⟩ := Renderer_Option.val_two_pow g
  have hlt : 2 ^ k < 2 ^ bits := Nat.pow_lt_pow_right (by decide) (by omega)
  have hmask : 2 ^ bits - 1 - 2 ^ k = 2 ^ bits - (2 ^ k + 1) := by omega
  have hne : g ≠ f → j ≠ k := by
    intro hgf hjk
    apply hgf
    apply Renderer_Option.val_injective
    rw [hf, hg, hjk]
  simp only [Renderer.Flags_IsSet, Renderer.Flags_Enable, Renderer.Flags_Disable, hf, hg, hmask,
    Renderer.and_two_pow_ne_zero, Nat.testBit_or, Nat.testBit_and,
    Nat.testBit_two_pow_sub_succ hlt, Nat.testBit_two_pow]
  refine ⟨by simp, by simp, fun hgf => ?_, ⟨k, hk, rfl⟩, fun hgf => ?_⟩
  · have hjk := hne hgf
    have hkj : k ≠ j := fun h => hjk h.symm
    have hjb : j < bits := by omega
    simp [hkj, hjb]
  · have hjk := hne hgf
    apply Nat.eq_of_testBit_eq
    intro i
    rw [Nat.testBit_and, Nat.testBit_two_pow, Nat.testBit_two_pow, Nat.zero_testBit]
    by_cases hki : k = i
    · subst hki; simp [hjk]
    · simp [hki]

/-- Witness of C27 on a 32-bit flag word with bloom and FXAA set: enabling and disabling the
grid flag sets and clears it and leaves the bloom flag set. -/
theorem Flags_bit_set_witness :
    Renderer.Flags_IsSet
        (Renderer.Flags_Enable 0x180 Renderer_Option.Render_Gizmo_Grid)
        Renderer_Option.Render_Gizmo_Grid = true
      ∧ Renderer.Flags_IsSet
        (Renderer.Flags_Disable 32 0x180 Renderer_Option.Render_Gizmo_Grid)
        Renderer_Option.Render_Gizmo_Grid = false
      ∧ Renderer.Flags_IsSet
        (Renderer.Flags_Disable 32 0x180 Renderer_Option.Render_Gizmo_Grid)
        Renderer_Option.Render_PostProcess_Bloom
          = Renderer.Flags_IsSet 0x180 Renderer_Option.Render_PostProcess_Bloom :=
  ⟨(Flags_bit_set 32 (by decide) 0x180 Renderer_Option.Render_Gizmo_Grid
      Renderer_Option.Render_PostProcess_Bloom).1,
    (Flags_bit_set 32 (by decide) 0x180 Renderer_Option.Render_Gizmo_Grid
      Renderer_Option.Render_PostProcess_Bloom).2.1,
    ((Flags_bit_set 32 (by decide) 0x180 Renderer_Option.Render_Gizmo_Grid
      Renderer_Option.Render_PostProcess_Bloom).2.2.1 (by decide)).2⟩

/-! ## Descriptor: slots and side effects -/

/-- Claim C28. `ComputeHash` folds the `Id` of each shader that is present, not the slot that
holds it. The descriptors `compute_S` and `vertex_S` differ only in where the compiled shader
`S` is bound, as compute shader in the one and as vertex shader in the other; `IsValid`
accepts both; and `ComputeHash` stores the same `m_hash` in both, for every `hash_combine`. -/
theorem ComputeHash_ignores_shader_slot :
    Sample.compute_S.shader_compute = some Sample.shader_S
      ∧ Sample.compute_S.shader_vertex = none
      ∧ Sample.vertex_S
        = { Sample.compute_S with shader_compute := none, shader_vertex := some Sample.shader_S }
      ∧ Sample.shader_S.IsCompiled = true
      ∧ (IsValid Sample.K Sample.compute_S).2 = true
      ∧ (IsValid Sample.K Sample.vertex_S).2 = true
      ∧ ∀ (K : RHI_Definition) (hash_combine : HashCombine),
        (ComputeHash K hash_combine Sample.compute_S).m_hash
          = (ComputeHash K hash_combine Sample.vertex_S).m_hash :=
  ⟨rfl, rfl, rfl, rfl, by decide, by decide, fun _ _ => rfl⟩

/-- Claim C29. `IsValid` writes two members of the descriptor, `profile` and `mark`, and sets
both to `pass_name != nullptr` whatever the verdict; every other member is as before. A second
`IsValid` on the descriptor it leaves, the shaders being as compiled as before, returns the
same verdict and leaves the same descriptor. -/
theorem IsValid_only_writes_profile_mark [NeZero N] (K : RHI_Definition)
    (d : RHI_PipelineState N) :
    (IsValid K d).1 = { d with profile := d.pass_name.isSome, mark := d.pass_name.isSome }
      ∧ (IsValid K (IsValid K d).1).2 = (IsValid K d).2
      ∧ (IsValid K (IsValid K d).1).1 = (IsValid K d).1 :=
  ⟨rfl, rfl, rfl⟩

/-- Witness of C29 at `graphics`, which has a pass name, and at `no_shader`, which `IsValid`
rejects. -/
theorem IsValid_only_writes_profile_mark_witness :
    (IsValid Sample.K Sample.graphics).1 = { Sample.graphics with profile := true, mark := true }
      ∧ (IsValid Sample.K (IsValid Sample.K Sample.no_shader).1).2
        = (IsValid Sample.K Sample.no_shader).2 :=
  ⟨(IsValid_only_writes_profile_mark Sample.K Sample.graphics).1,
    (IsValid_only_writes_profile_mark Sample.K Sample.no_shader).2.1⟩

/-! ## Image importer -/

/-- Claim C30, evaluated on the code. For the loaded image of two pixels in one row, whose
eight RGBA bytes are 10, 20, ..., 80, `GetRGBACopy` returns eight bytes whose element 3 is 50,
the red of pixel 1, where the RGBA data has 40, the alpha of pixel 0, and whose last byte is
whatever the new array held; `GetRGBCopy` and `GetAlphaCopy` return the colour channels and
the alpha channel of both pixels. -/
theorem GetRGBACopy_sample :
    Sample.image_2x1.m_dataRGBA.length
        = 4 * Sample.image_2x1.m_width * Sample.image_2x1.m_height
      ∧ (∀ indeterminate : Nat → Nat,
        Sample.image_2x1.GetRGBACopy indeterminate
          = [10, 20, 30, 50, 60, 70, 80, indeterminate 7])
      ∧ Sample.image_2x1.m_dataRGBA = [10, 20, 30, 40, 50, 60, 70, 80]
      ∧ (∀ indeterminate : Nat → Nat,
        Sample.image_2x1.GetRGBCopy indeterminate = [10, 20, 30, 50, 60, 70])
      ∧ (∀ indeterminate : Nat → Nat,
        Sample.image_2x1.GetAlphaCopy indeterminate = [40, 80]) :=
  ⟨rfl, fun _ => rfl, rfl, fun _ => rfl, fun _ => rfl⟩

end Spartan
